import Mathlib

/-!
Verification development for the qvikchat request pipeline.

The definitions below are a shallow embedding of the TypeScript sources:

* the cache data model and the two cache store implementations
  (src/cache/in-memory-cache-store.ts and src/cache/firestore-cache-store.ts),
* the in-memory chat history store (src/history/in-memory-chat-history-store.ts),
* the API key auth policy (src/auth/api-key-auth-policy.ts),
* the chat endpoint request pipeline (defineChatEndpoint in src/core/core.ts),
  including the chat agent generation step (src/agents/chat-agent.ts).

Modelling conventions:

* JavaScript in-memory Maps become association lists with functional update.
* Async store methods are pure state passing; a thrown error becomes an
  Except.error value carrying the thrown message.
* Machine time (Date.now) is a Nat millisecond clock supplied with each request.
* The SHA-256 hex digest used for fingerprints is modelled as the identity
  function on strings: the pipeline relies only on the digest being
  deterministic, and collision resistance is idealized as injectivity.
* Random conversation id generation is modelled as a fresh counter; the source
  draws 32 random bytes, and collision resistance is idealized as freshness.
* Prompt prose is abbreviated to short tags: the pipeline only moves these
  strings around, and the claims depend only on which prompt variant is chosen
  and on message roles and counts.
-/

/-- Association map with string keys used to model JavaScript Map objects and
Firestore collections keyed by document id. -/
def StrMap (β : Type) : Type := List (String × β)

namespace StrMap

/-- Empty map. -/
def empty {β : Type} : StrMap β := []

/-- Lookup, mirroring Map.get. -/
def get {β : Type} : StrMap β → String → Option β
  | [], _ => none
  | (k', v) :: rest, k => if k = k' then some v else get rest k

/-- Functional update, mirroring Map.set: replaces the binding if the key is
present, appends it otherwise. -/
def set {β : Type} : StrMap β → String → β → StrMap β
  | [], k, v => [(k, v)]
  | (k', v') :: rest, k, v =>
      if k = k' then (k', v) :: rest else (k', v') :: set rest k v

/-- Check a predicate on every value of the map. -/
def allValues {β : Type} (m : StrMap β) (p : β → Bool) : Bool :=
  List.all m fun kv => p kv.2

instance {β : Type} [DecidableEq β] : DecidableEq (StrMap β) :=
  inferInstanceAs (DecidableEq (List (String × β)))

instance {β : Type} [Repr β] : Repr (StrMap β) :=
  inferInstanceAs (Repr (List (String × β)))

end StrMap

/-- Response kind tags supported by the cache store
(CacheStoreResponseTypes in src/cache/cache-store.ts). -/
inductive ResponseType : Type
  | text
  | json
  | media
deriving DecidableEq, Repr

/-- Cached response payload: a string for text and serialized-JSON responses, a
content type plus url for media responses (CacheResponseRecord). -/
inductive CachePayload : Type
  | str (s : String)
  | media (contentType url : String)
deriving DecidableEq, Repr

/-- JavaScript truthiness of the response field of a CacheResponseRecord: the
empty string is falsy, an object is always truthy. -/
def CachePayload.present : CachePayload → Bool
  | .str s => s ≠ ""
  | .media _ _ => true

/-- Cache record (CacheRecord in src/cache/cache-store.ts). Thresholds are Int
because the Firestore implementation can drive them negative. -/
structure CacheRecord : Type where
  query : String
  responseType : ResponseType
  cacheThreshold : Int
  cacheHits : Nat
  response : Option CachePayload := none
  expiry : Option Nat := none
  lastAccessed : Option Nat := none
  lastUsed : Option Nat := none
deriving DecidableEq, Repr

/-- In-memory cache store (src/cache/in-memory-cache-store.ts). -/
structure InMemoryCacheStore : Type where
  cache : StrMap CacheRecord
  recordExpiryDuration : Nat := 1000 * 60 * 60 * 24
  cacheQueryAfterThreshold : Int := 3
deriving DecidableEq, Repr

namespace InMemoryCacheStore

/-- addQuery: inserts a tracking record with the configured threshold and no
payload; throws on an empty query. The pipeline always passes the hash. -/
def addQuery (s : InMemoryCacheStore) (query : String)
    (responseType : ResponseType) (hash : Option String) :
    Except String InMemoryCacheStore :=
  if query = "" then .error "Invalid query data"
  else
    let record : CacheRecord :=
      { query := query
        responseType := responseType
        cacheThreshold := s.cacheQueryAfterThreshold
        cacheHits := 0 }
    .ok { s with cache := s.cache.set (hash.getD query) record }

/-- cacheResponse: attaches a payload and a fresh expiry to an existing record;
throws on an empty hash, a falsy payload, or a missing record. -/
def cacheResponse (s : InMemoryCacheStore) (hash : String)
    (responseType : ResponseType) (response : CachePayload) (now : Nat) :
    Except String InMemoryCacheStore :=
  if hash = "" ∨ response.present = false then
    .error "Invalid hash or response data"
  else
    match s.cache.get hash with
    | none => .error "Record not found in cache"
    | some r =>
        .ok { s with
                cache := s.cache.set hash
                  { r with
                      responseType := responseType
                      response := some response
                      expiry := some (now + s.recordExpiryDuration) } }

/-- getRecord: none models the thrown record-not-found error, which the
pipeline consumes in its catch branch. -/
def getRecord (s : InMemoryCacheStore) (hash : String) : Option CacheRecord :=
  s.cache.get hash

/-- isExpired: true iff an expiry is set and strictly in the past. -/
def isExpired (r : CacheRecord) (now : Nat) : Bool :=
  match r.expiry with
  | some e => e < now
  | none => false

/-- decrementCacheThreshold: decrements by one unless the threshold is already
zero, and returns the record value after the in-place mutation; a missing
record leaves the store unchanged and returns the sentinel -1. -/
def decrementCacheThreshold (s : InMemoryCacheStore) (hash : String) :
    InMemoryCacheStore × Int :=
  match s.cache.get hash with
  | some r =>
      let r' := if r.cacheThreshold ≠ 0
        then { r with cacheThreshold := r.cacheThreshold - 1 } else r
      ({ s with cache := s.cache.set hash r' }, r'.cacheThreshold)
  | none => (s, -1)

/-- incrementCacheHits: bumps the hit counter; throws on a missing record. -/
def incrementCacheHits (s : InMemoryCacheStore) (hash : String) :
    Except String InMemoryCacheStore :=
  match s.cache.get hash with
  | none => .error "Record not found in cache"
  | some r =>
      .ok { s with cache := s.cache.set hash { r with cacheHits := r.cacheHits + 1 } }

/-- Modelled from the spec: the resetCache implementation is missing from the
provided sources (both store files are cut before it), so this follows the
CacheStore interface contract in src/cache/cache-store.ts: clear the response,
reset the cache threshold, increment the cache hits, and update the last
accessed time; a missing record is left alone. -/
def resetCache (s : InMemoryCacheStore) (hash : String) (now : Nat) :
    InMemoryCacheStore :=
  match s.cache.get hash with
  | some r =>
      { s with
          cache := s.cache.set hash
            { r with
                response := none
                cacheThreshold := s.cacheQueryAfterThreshold
                cacheHits := r.cacheHits + 1
                lastAccessed := some now } }
  | none => s

/-- Modelled from the spec: the updateLastUsed implementation is missing from
the provided sources; per the interface contract and the call-site comment in
core.ts ("update last used time and increment cache hits") it stamps the last
used time and bumps the hit counter. -/
def updateLastUsed (s : InMemoryCacheStore) (hash : String) (now : Nat) :
    InMemoryCacheStore :=
  match s.cache.get hash with
  | some r =>
      { s with
          cache := s.cache.set hash
            { r with lastUsed := some now, cacheHits := r.cacheHits + 1 } }
  | none => s

end InMemoryCacheStore

/-- Firestore cache store (src/cache/firestore-cache-store.ts), modelled as a
document collection keyed by hash. -/
structure FirestoreCacheStore : Type where
  cache : StrMap CacheRecord
  recordExpiryDuration : Nat := 1000 * 60 * 60 * 24
  cacheQueryAfterThreshold : Int := 3
deriving DecidableEq, Repr

namespace FirestoreCacheStore

/-- Firestore decrementCacheThreshold: reads the document and writes back
cacheThreshold - 1 with no floor at zero, returning a write result rather than
the new value. For a missing document the snapshot is still truthy, so the
not-found guard never fires and the data access on undefined fails. -/
def decrementCacheThreshold (s : FirestoreCacheStore) (hash : String) :
    Except String FirestoreCacheStore :=
  match s.cache.get hash with
  | some r =>
      .ok { s with cache := s.cache.set hash { r with cacheThreshold := r.cacheThreshold - 1 } }
  | none => .error "TypeError: cannot read properties of undefined"

end FirestoreCacheStore

/-- Message roles used in chat history (MessageData roles). -/
inductive Role : Type
  | user
  | model
  | system
deriving DecidableEq, Repr

/-- First content part of a message: plain text, structured data (kept in its
serialized form), or media. -/
inductive MsgContent : Type
  | text (s : String)
  | data (s : String)
  | media (contentType url : String)
deriving DecidableEq, Repr

/-- A chat message (MessageData restricted to its first content part, which is
the only part the pipeline reads). -/
structure Message : Type where
  role : Role
  content : MsgContent
deriving DecidableEq, Repr

/-- Chat history record (ChatHistoryRecord in src/history/chat-history-store.ts). -/
structure ChatHistoryRecord : Type where
  messages : List Message
  lastUpdated : Nat
deriving DecidableEq, Repr

/-- In-memory chat history store (src/history/in-memory-chat-history-store.ts).
The nextId counter models the random conversation id generator. -/
structure InMemoryChatHistoryStore : Type where
  history : StrMap ChatHistoryRecord
  nextId : Nat := 0
deriving DecidableEq, Repr

/-- Model of generateAlphaNumericString: the nth id drawn from the idealized
random generator. -/
def freshChatId (n : Nat) : String := "chat-" ++ toString n

namespace InMemoryChatHistoryStore

/-- addChatHistory: stores the messages under a freshly generated chat id and
returns that id. -/
def addChatHistory (s : InMemoryChatHistoryStore) (messages : List Message)
    (now : Nat) : InMemoryChatHistoryStore × String :=
  let chatId := freshChatId s.nextId
  ({ history := s.history.set chatId ⟨messages, now⟩, nextId := s.nextId + 1 }, chatId)

/-- addMessages: appends messages to an existing conversation; returns false
without modifying anything when the chat id is unknown. -/
def addMessages (s : InMemoryChatHistoryStore) (chatId : String)
    (messages : List Message) (now : Nat) : InMemoryChatHistoryStore × Bool :=
  match s.history.get chatId with
  | some r =>
      ({ s with history := s.history.set chatId ⟨r.messages ++ messages, now⟩ }, true)
  | none => (s, false)

/-- getChatHistory: returns the messages, or the thrown chat-history-not-found
error message for an unknown id. -/
def getChatHistory (s : InMemoryChatHistoryStore) (chatId : String) :
    Except String (List Message) :=
  match s.history.get chatId with
  | some r => .ok r.messages
  | none => .error ("Chat history with ID " ++ chatId ++ " not found.")

/-- deleteChatHistory: removes the record, reporting whether it was present. -/
def deleteChatHistory (s : InMemoryChatHistoryStore) (chatId : String) :
    InMemoryChatHistoryStore × Bool :=
  match s.history.get chatId with
  | some _ =>
      ({ s with history := List.filter (fun kv => kv.1 ≠ chatId) s.history }, true)
  | none => (s, false)

end InMemoryChatHistoryStore

/-- Role rendering used by getChatHistoryAsString. -/
def Role.str : Role → String
  | .user => "user"
  | .model => "model"
  | .system => "system"

/-- getChatHistoryAsString (src/utils/utils.ts): serializes the history inside
chat-history tags; a message contributes a line only when its first content
part has truthy text. -/
def getChatHistoryAsString (messages : List Message) : String :=
  (messages.foldl
    (fun acc m =>
      match m.content with
      | .text s =>
          if s = "" then acc
          else acc ++ "<chat_history_item>" ++ m.role.str ++ ": " ++ s ++
            "</chat_history_item>\n"
      | _ => acc)
    "<chat_history>\n") ++ "</chat_history>"

/-- generateHash (src/utils/utils.ts): SHA-256 hex digest of the input. The
pipeline uses it only as a deterministic fingerprint; collision resistance is
idealized as injectivity, so the digest is modelled by the identity. -/
def generateHash (data : String) : String := data

/-- Output schema for a response (OutputSchemaType in src/models/models.ts):
text, json (the optional zod schema is elided), or media with a content type. -/
inductive OutputFormat : Type
  | text
  | json
  | media (contentType : String)
deriving DecidableEq, Repr

/-- The response kind tag a format is stored under in the cache. -/
def OutputFormat.tag : OutputFormat → ResponseType
  | .text => .text
  | .json => .json
  | .media _ => .media

/-- The three chat agent variants (ChatAgentType in src/agents/chat-agent.ts). -/
inductive ChatAgentType : Type
  | openEnded
  | closeEnded
  | rag
deriving DecidableEq, Repr

/-- Parameters of getSystemPromptText (src/prompts/system-prompts.ts). -/
inductive SystemPromptParams : Type
  | openEnded
  | closeEnded (topic : String)
  | rag (topic : String)
deriving DecidableEq, Repr

/-- getSystemPromptText: selects the system prompt prose for an agent variant.
The prose is abbreviated to a tag; only the selected variant matters here. -/
def getSystemPromptText : SystemPromptParams → String
  | .openEnded => "system-prompt:open-ended"
  | .closeEnded topic => "system-prompt:close-ended:" ++ topic
  | .rag topic => "system-prompt:rag:" ++ topic

/-- The system message text rendered by the dotprompt templates that the chat
agent uses for fresh generation (src/prompts/system-prompts.ts dotprompt
definitions). This is a distinct artifact from getSystemPromptText, which the
cache-hit path uses to re-derive a seed message; the two can drift. -/
def agentSystemMessageText (t : ChatAgentType) (topic : Option String) : String :=
  match t with
  | .openEnded => "dotprompt-system:open-ended"
  | .closeEnded => "dotprompt-system:close-ended:" ++ topic.getD ""
  | .rag => "dotprompt-system:rag:" ++ topic.getD ""

/-- Input assembled for one call of the response generator collaborator. -/
structure GenInput : Type where
  query : String
  context : Option String
  history : Option (List Message)
deriving DecidableEq, Repr

/-- Result of a successful generator call, with the accessors the pipeline
uses: text(), the serialized output(), and media(). -/
structure GenOutput : Type where
  text : String
  output : String
  mediaContentType : String
  mediaUrl : String
deriving DecidableEq, Repr

/-- The response generator collaborator (the model invocation behind
prompt.generate and generate in src/agents/chat-agent.ts); an error models a
provider-side failure. -/
def Generator : Type := GenInput → Except String GenOutput

/-- The retriever collaborator (TextDataRetriever.invoke). -/
def Retriever : Type := String → Except String String

/-- Response value returned to the caller: a string for text, the structured
output (kept serialized) for json, or a content type plus url for media. -/
inductive ResponseValue : Type
  | text (s : String)
  | json (s : String)
  | media (contentType url : String)
deriving DecidableEq, Repr

/-- Result shape of the endpoint flow handler: the success object (response
plus optional chat id) or the error object. -/
inductive EndpointResult : Type
  | success (response : ResponseValue) (chatId : Option String)
  | failure (error : String)
deriving DecidableEq, Repr

def EndpointResult.isFailure : EndpointResult → Bool
  | .failure _ => true
  | .success _ _ => false

/-- The agent type field of the endpoint configuration
(ChatAgentTypeParams in core.ts): open-ended or close-ended. -/
inductive ConfigAgentType : Type
  | openEnded
  | closeEnded
deriving DecidableEq, Repr

/-- Endpoint configuration (ChatEndpointConfig in core.ts) restricted to the
fields the handler reads. The topic accompanies a close-ended agent or RAG;
retriever and retrieverConfig model the two ways of supplying a retriever
(retrieverConfig stands for the retriever built by getDataRetriever). Verbose
usage metadata is elided: it carries opaque collaborator data. -/
structure ChatEndpointConfig : Type where
  endpoint : String := "chat"
  agentType : ConfigAgentType := .openEnded
  topic : Option String := none
  enableChatHistory : Bool := false
  enableAuth : Bool := false
  enableCache : Bool := false
  enableRAG : Bool := false
  retriever : Option Retriever := none
  retrieverConfig : Option Retriever := none
  outputSchema : Option OutputFormat := none

/-- The agent variant the pipeline instantiates (core.ts lines 290-324): rag
whenever RAG is enabled, otherwise the configured open or close-ended type. -/
def effectiveAgentType (cfg : ChatEndpointConfig) : ChatAgentType :=
  if cfg.enableRAG then .rag
  else
    match cfg.agentType with
    | .openEnded => .openEnded
    | .closeEnded => .closeEnded

/-- Prompt-variant selection of the cache-hit path (core.ts lines 459-466):
rag is chosen only when the agent type is close-ended AND RAG is enabled. -/
def hitPromptParams (cfg : ChatEndpointConfig) : SystemPromptParams :=
  match cfg.agentType with
  | .closeEnded =>
      if cfg.enableRAG then .rag (cfg.topic.getD "")
      else .closeEnded (cfg.topic.getD "")
  | .openEnded => .openEnded

/-- Inbound request (the flow input schema in core.ts), with the wall-clock
time at which the request is processed. -/
structure ChatEndpointRequest : Type where
  query : String
  chatId : Option String := none
  uid : Option String := none
  outputSchema : Option OutputFormat := none
  now : Nat := 0
deriving Repr

/-- Store state shared by all requests of an endpoint. -/
structure WorldState : Type where
  cacheStore : InMemoryCacheStore
  historyStore : InMemoryChatHistoryStore
deriving DecidableEq, Repr

/-- Result of one handler run: the returned object, the store state after the
run, and how many times the response generator was invoked. -/
structure PipelineOutcome : Type where
  result : EndpointResult
  state : WorldState
  genCalls : Nat
deriving DecidableEq, Repr

/-- The outer catch of the handler stringifies the caught Error object and
prefixes it once more (core.ts line 645). -/
def caughtErrorResponse (msg : String) : String := "Error: Error: " ++ msg

/-- JavaScript truthiness of the optional chat id: an empty string counts as
not supplied. -/
def normalizeChatId : Option String → Option String
  | some s => if s = "" then none else some s
  | none => none

/-- HistoryLoad (core.ts lines 342-360): fetch the history when chat history
is enabled and a chat id was supplied; an unknown id surfaces the thrown
message. -/
def historyLoad (enableChatHistory : Bool) (hs : InMemoryChatHistoryStore)
    (chatId : Option String) : Except String (Option (List Message)) :=
  if enableChatHistory then
    match chatId with
    | some c => (hs.getChatHistory c).map some
    | none => .ok none
  else .ok none

/-- Reconstruction of the cached response (core.ts lines 396-440): dispatches
on the expected format and the stored kind, producing the returned value and
the synthesized model message; none models the thrown parse error. JSON.parse
is kept as the serialized string and idealized as total, since stored json
payloads come from JSON.stringify. -/
def parseCachedResponse (format : OutputFormat) (responseType : ResponseType)
    (payload : CachePayload) : Option (ResponseValue × Message) :=
  match format, responseType, payload with
  | .text, .text, .str s => some (.text s, ⟨.model, .text s⟩)
  | .json, .json, .str s => some (.json s, ⟨.model, .data s⟩)
  | .media ct, .media, .media pct url =>
      if pct = ct then some (.media pct url, ⟨.model, .media pct url⟩) else none
  | _, _, _ => none

/-- Outcome of the cache lookup phase: serve from cache, or proceed to
generation with the must-cache mark. -/
inductive CacheLookupOutcome : Type
  | hit (response : ResponseValue) (modelMessage : Message)
  | miss (cacheThresholdReached : Bool)
deriving DecidableEq, Repr

/-- CacheLookup (core.ts lines 377-522). A record counts as a candidate hit
when its response is truthy and its stored kind equals the expected format; an
expired candidate is reset and treated as a miss; a parse failure lands in the
outer catch, which re-adds the query. Otherwise the threshold is decremented
in place and the mark is set when the post-decrement value minus one is zero
(the handler reads the mutated record). A missing record is added for
tracking. -/
def cacheLookup (s : InMemoryCacheStore) (queryHash queryWithContext : String)
    (format : OutputFormat) (now : Nat) :
    CacheLookupOutcome × InMemoryCacheStore :=
  match s.getRecord queryHash with
  | none =>
      (.miss false, ((s.addQuery queryWithContext format.tag (some queryHash)).toOption).getD s)
  | some cachedQuery =>
      match cachedQuery.response with
      | some payload =>
          if payload.present = true ∧ cachedQuery.responseType = format.tag then
            if InMemoryCacheStore.isExpired cachedQuery now = true then
              (.miss false, s.resetCache queryHash now)
            else
              let s' := s.updateLastUsed queryHash now
              match parseCachedResponse format cachedQuery.responseType payload with
              | some (rv, mm) => (.hit rv mm, s')
              | none =>
                  (.miss false, ((s'.addQuery queryWithContext format.tag (some queryHash)).toOption).getD s')
          else
            (.miss ((s.decrementCacheThreshold queryHash).2 - 1 == 0),
              (s.decrementCacheThreshold queryHash).1)
      | none =>
          (.miss ((s.decrementCacheThreshold queryHash).2 - 1 == 0),
            (s.decrementCacheThreshold queryHash).1)

/-- ContextRetrieval (core.ts lines 529-547): when RAG is enabled, use the
supplied retriever, else the one built from the retriever config, else fail
with the configuration error; a retriever failure lands in the outer catch. -/
def ragContext (cfg : ChatEndpointConfig) (query : String) :
    Except String (Option String) :=
  if cfg.enableRAG then
    match cfg.retriever with
    | some r =>
        match r query with
        | .ok ctx => .ok (some ctx)
        | .error e => .error (caughtErrorResponse e)
    | none =>
        match cfg.retrieverConfig with
        | some rc =>
            match rc query with
            | .ok ctx => .ok (some ctx)
            | .error e => .error (caughtErrorResponse e)
        | none => .error "Error: To enable RAG you must provide either retriever or retriever config."
  else .ok none

/-- Generate (ChatAgent.generateResponse with the history props assembled in
core.ts lines 549-570): without history a bare generation; with history and no
chat id the response seeds a new conversation (the dotprompt system message,
the user turn, the model turn) and returns the fresh id; with a chat id the
generation uses the fetched history and appends the last two turns. -/
def agentGenerate (cfg : ChatEndpointConfig) (g : Generator)
    (hs : InMemoryChatHistoryStore) (req : ChatEndpointRequest)
    (context : Option String) (historyOpt : Option (List Message))
    (chatId : Option String) :
    Except String (GenOutput × InMemoryChatHistoryStore × Option String) :=
  if cfg.enableChatHistory then
    match chatId with
    | none =>
        match g ⟨req.query, context, none⟩ with
        | .error e => .error e
        | .ok out =>
            let seed : List Message :=
              [⟨.system, .text (agentSystemMessageText (effectiveAgentType cfg) cfg.topic)⟩,
               ⟨.user, .text req.query⟩,
               ⟨.model, .text out.text⟩]
            .ok (out, (hs.addChatHistory seed req.now).1,
              some (hs.addChatHistory seed req.now).2)
    | some c =>
        let chatHistory := historyOpt.getD []
        match g ⟨req.query, context, some chatHistory⟩ with
        | .error e => .error e
        | .ok out =>
            .ok (out,
              (hs.addMessages c
                [⟨.user, .text req.query⟩, ⟨.model, .text out.text⟩] req.now).1,
              some c)
  else
    match g ⟨req.query, context, none⟩ with
    | .error e => .error e
    | .ok out => .ok (out, hs, none)

/-- CacheWrite (core.ts lines 572-604): only when the must-cache mark is set;
json caches the serialized output, media caches the content when truthy and
silently skips otherwise, text caches the text. -/
def cacheWrite (cfg : ChatEndpointConfig) (cs : InMemoryCacheStore)
    (format : OutputFormat) (queryHash : String) (out : GenOutput)
    (mark : Bool) (now : Nat) : Except String InMemoryCacheStore :=
  if cfg.enableCache = true ∧ mark = true then
    match format with
    | .json => cs.cacheResponse queryHash .json (.str out.output) now
    | .media _ =>
        if out.mediaContentType ≠ "" ∧ out.mediaUrl ≠ "" then
          cs.cacheResponse queryHash .media (.media out.mediaContentType out.mediaUrl) now
        else .ok cs
    | .text => cs.cacheResponse queryHash .text (.str out.text) now
  else .ok cs

/-- Respond (core.ts lines 606-623): shape the fresh response per format; an
untruthy media response falls back to the structured output. -/
def renderResponse (format : OutputFormat) (out : GenOutput) : ResponseValue :=
  match format with
  | .json => .json out.output
  | .media _ =>
      if out.mediaContentType ≠ "" ∧ out.mediaUrl ≠ "" then
        .media out.mediaContentType out.mediaUrl
      else .json out.output
  | .text => .text out.text

/-- The generation path of the handler: context retrieval, generation (with
its history writes), cache write, response shaping. Store states at each
failure exit mirror which writes had already happened. -/
def generationPhase (cfg : ChatEndpointConfig) (g : Generator)
    (cs : InMemoryCacheStore) (hs : InMemoryChatHistoryStore)
    (req : ChatEndpointRequest) (format : OutputFormat) (queryHash : String)
    (historyOpt : Option (List Message)) (chatId : Option String)
    (mark : Bool) : PipelineOutcome :=
  match ragContext cfg req.query with
  | .error e => ⟨.failure e, ⟨cs, hs⟩, 0⟩
  | .ok context =>
      match agentGenerate cfg g hs req context historyOpt chatId with
      | .error e => ⟨.failure (caughtErrorResponse e), ⟨cs, hs⟩, 1⟩
      | .ok (out, hs', retChatId) =>
          match cacheWrite cfg cs format queryHash out mark req.now with
          | .error e => ⟨.failure (caughtErrorResponse e), ⟨cs, hs'⟩, 1⟩
          | .ok cs' =>
              ⟨.success (renderResponse format out)
                (if cfg.enableChatHistory then retChatId else none), ⟨cs', hs'⟩, 1⟩

/-- The cache-hit return path (core.ts lines 442-495): with history enabled
and a chat id, append the user turn and the reconstructed model turn; without
a chat id, create a history seeded with the re-derived system prompt plus the
two turns and return the fresh id. -/
def hitReturn (cfg : ChatEndpointConfig) (cs : InMemoryCacheStore)
    (hs : InMemoryChatHistoryStore) (req : ChatEndpointRequest)
    (chatId : Option String) (rv : ResponseValue) (mm : Message) :
    PipelineOutcome :=
  if cfg.enableChatHistory then
    match chatId with
    | some c =>
        ⟨.success rv (some c),
          ⟨cs, (hs.addMessages c [⟨.user, .text req.query⟩, mm] req.now).1⟩, 0⟩
    | none =>
        let seed : List Message :=
          [⟨.system, .text (getSystemPromptText (hitPromptParams cfg))⟩,
           ⟨.user, .text req.query⟩, mm]
        ⟨.success rv (some (hs.addChatHistory seed req.now).2),
          ⟨cs, (hs.addChatHistory seed req.now).1⟩, 0⟩
  else ⟨.success rv none, ⟨cs, hs⟩, 0⟩

/-- The working query-with-context string (core.ts lines 326-349): the query
itself, extended with the serialized history when one was loaded. -/
def queryWithContextOf (query : String) (historyOpt : Option (List Message)) : String :=
  match historyOpt with
  | some h => query ++ getChatHistoryAsString h
  | none => query

/-- The flow handler of defineChatEndpoint (core.ts lines 265-648): greeting
short-circuit on the empty query, effective format resolution (the request
overrides the endpoint configuration, defaulting to text), history load, cache
lookup with hit or generation continuation. -/
def handleRequest (cfg : ChatEndpointConfig) (g : Generator) (st : WorldState)
    (req : ChatEndpointRequest) : PipelineOutcome :=
  if req.query = "" then
    ⟨.success (.text "How can I help you today?") none, st, 0⟩
  else
    let format := req.outputSchema.getD (cfg.outputSchema.getD .text)
    let chatId := normalizeChatId req.chatId
    match historyLoad cfg.enableChatHistory st.historyStore chatId with
    | .error msg => ⟨.failure msg, st, 0⟩
    | .ok historyOpt =>
        let queryWithContext := queryWithContextOf req.query historyOpt
        if cfg.enableCache then
          let queryHash := generateHash queryWithContext
          if queryHash = "" then
            ⟨.failure "Error: Invalid query. Could not generate hash.", st, 0⟩
          else
            match cacheLookup st.cacheStore queryHash queryWithContext format req.now with
            | (.hit rv mm, cs) => hitReturn cfg cs st.historyStore req chatId rv mm
            | (.miss mark, cs) =>
                generationPhase cfg g cs st.historyStore req format queryHash historyOpt chatId mark
        else
          generationPhase cfg g st.cacheStore st.historyStore req format "" historyOpt chatId false

/-- Store state after a sequence of requests against one endpoint. -/
def runTrace (cfg : ChatEndpointConfig) (g : Generator) (st : WorldState)
    (reqs : List ChatEndpointRequest) : WorldState :=
  reqs.foldl (fun s r => (handleRequest cfg g s r).state) st

/-- API key status (src/auth/api-key-store.ts). -/
inductive APIKeyStatus : Type
  | active
  | disabled
deriving DecidableEq, Repr

/-- Endpoint allow-list of an API key: the sentinel all or an explicit list. -/
inductive AllowedEndpoints : Type
  | all
  | list (endpoints : List String)
deriving DecidableEq, Repr

/-- API key record (APIKeyRecord in src/auth/api-key-store.ts). -/
structure APIKeyRecord : Type where
  uid : String
  status : APIKeyStatus
  endpoints : AllowedEndpoints
  requests : Nat := 0
  requestsLimit : Option Nat := none
  lastUsed : Nat := 0
deriving DecidableEq, Repr

/-- In-memory API key store (src/auth/in-memory-api-key-store.ts). -/
structure InMemoryAPIKeyStore : Type where
  keys : StrMap APIKeyRecord
deriving DecidableEq, Repr

/-- The requests-limit guard of the auth policy: JavaScript truthiness makes a
limit of zero inert. -/
def requestsLimitExceeded (r : APIKeyRecord) : Bool :=
  match r.requestsLimit with
  | some lim => if lim = 0 then false else decide (lim ≤ r.requests)
  | none => false

/-- Whether the endpoint is allowed for the key: the sentinel all bypasses the
check. -/
def endpointAllowed (e : AllowedEndpoints) (endpoint : String) : Bool :=
  match e with
  | .all => true
  | .list l => l.contains endpoint

/-- apiKeyAuthPolicy (src/auth/api-key-auth-policy.ts): each failure throws a
distinct message; on success the usage counter is incremented. -/
def apiKeyAuthPolicy (key : Option String) (uid : String) (endpoint : String)
    (store : Option InMemoryAPIKeyStore) : Except String InMemoryAPIKeyStore :=
  match key with
  | none => .error "Authorization required. Missing API key."
  | some k =>
      if k = "" then .error "Authorization required. Missing API key."
      else
        match store with
        | none => .error "Authorization failed. API key store not initialized."
        | some s =>
            match s.keys.get k with
            | none => .error ("Authorization failed. API key not found " ++ k ++ ".")
            | some apiKey =>
                if apiKey.status = .disabled then
                  .error "Authorization failed. API key is disabled."
                else if apiKey.uid ≠ uid then
                  .error "Authorization failed. Invalid user ID."
                else if requestsLimitExceeded apiKey = true then
                  .error "Authorization failed. Requests limit exceeded for the provided API key."
                else if endpointAllowed apiKey.endpoints endpoint = false then
                  .error "Authorization failed. Endpoint not allowed for the provided API key."
                else
                  .ok ⟨s.keys.set k { apiKey with requests := apiKey.requests + 1 }⟩

/-- Result of running the flow end to end: the handler outcome, or an auth
policy rejection under which the handler never ran. -/
inductive FlowResult : Type
  | output (outcome : PipelineOutcome)
  | authFailure (message : String)
deriving DecidableEq, Repr

/-- Modelled from the spec: the flow framework around the handler (genkit
defineFlow and its flows server, external to this repository) evaluates the
endpoint authPolicy before running the flow handler; spec section 4.4 lists
AuthCheck as state 1 and section 7 requires auth errors to be raised before
any generation cost. The policy body is the authPolicy closure of core.ts
lines 247-263 over apiKeyAuthPolicy, with the middleware extracting the key
from the authorization header. -/
def runEndpoint (cfg : ChatEndpointConfig) (keyStore : Option InMemoryAPIKeyStore)
    (g : Generator) (authKey : Option String) (st : WorldState)
    (req : ChatEndpointRequest) : FlowResult :=
  if cfg.enableAuth then
    match authKey with
    | none => .authFailure "Error: Invalid API key"
    | some k =>
        if k = "" then .authFailure "Error: Invalid API key"
        else
          match req.uid with
          | none => .authFailure "Error: User ID not provided"
          | some u =>
              if u = "" then .authFailure "Error: User ID not provided"
              else
                match apiKeyAuthPolicy (some k) u cfg.endpoint keyStore with
                | .error e => .authFailure e
                | .ok _ => .output (handleRequest cfg g st req)
  else .output (handleRequest cfg g st req)

/-- The admission invariant asserted by the spec, strengthened to the bound
the code actually maintains on the good path: every record without a payload
has threshold at least 2 (in particular strictly positive). -/
def admissionInvariant (s : InMemoryCacheStore) : Prop :=
  ∀ h r, s.cache.get h = some r → r.response = none → 2 ≤ r.cacheThreshold

/-- The admission invariant away from one fingerprint; the marked record at
that fingerprint is mid-transition until the cache write lands. -/
def admissionInvariantExcept (s : InMemoryCacheStore) (hash : String) : Prop :=
  ∀ h r, s.cache.get h = some r → r.response = none → h ≠ hash →
    2 ≤ r.cacheThreshold

/-- A generator whose calls all succeed with truthy payload fields, so that
every marked response is actually written to the cache. -/
def Generator.wellBehaved (g : Generator) : Prop :=
  ∀ inp, ∃ out, g inp = .ok out ∧ out.text ≠ "" ∧ out.output ≠ "" ∧
    out.mediaContentType ≠ "" ∧ out.mediaUrl ≠ ""

/-- Context retrieval never fails for this configuration (RAG disabled, or a
retriever that always succeeds). -/
def ragReliable (cfg : ChatEndpointConfig) : Prop :=
  ∀ q, ∃ ctx, ragContext cfg q = .ok ctx

/-- A deterministic always-successful generator used in concrete runs. -/
def sampleGen : Generator := fun _ => .ok ⟨"R", "OUT", "ct", "url"⟩

/-- A generator that succeeds but produces empty text, the shape that makes
the post-generation cache write throw. -/
def emptyTextGen : Generator := fun _ => .ok ⟨"", "OUT", "ct", "url"⟩

/-- A retriever that always returns the same context. -/
def sampleRetriever : Retriever := fun _ => .ok "CTX"

/-- A cache-only endpoint configuration. -/
def cacheOnlyConfig : ChatEndpointConfig := { enableCache := true }

/-- The end-to-end scenario endpoint of spec section 8: RAG, history and cache
enabled. -/
def scenarioConfig : ChatEndpointConfig :=
  { enableChatHistory := true
    enableCache := true
    enableRAG := true
    topic := some "inventory data"
    retrieverConfig := some sampleRetriever }

/-- Fresh stores with admission threshold n and a 24h record expiry. -/
def emptyState (n : Int) : WorldState := ⟨⟨[], 86400000, n⟩, ⟨[], 0⟩⟩

/-- Scenario call 1: fixed query, no chat id, threshold 2. -/
def scenarioCall1 : PipelineOutcome :=
  handleRequest scenarioConfig sampleGen (emptyState 2)
    { query := "What is the price of X?", now := 0 }

/-- Scenario call 2: same query text, reusing the chat id returned by call 1. -/
def scenarioCall2 : PipelineOutcome :=
  handleRequest scenarioConfig sampleGen scenarioCall1.state
    { query := "What is the price of X?", chatId := some "chat-0", now := 1 }

/-- Scenario call 3: same query text, same chat id. -/
def scenarioCall3 : PipelineOutcome :=
  handleRequest scenarioConfig sampleGen scenarioCall2.state
    { query := "What is the price of X?", chatId := some "chat-0", now := 2 }

/-- Number of messages with the given role. -/
def countRole (msgs : List Message) (role : Role) : Nat :=
  msgs.countP fun m => m.role == role

/-- Store state after a five-request trace on one fingerprint: a text payload
is admitted and cached, a json request then sights the mismatched record, the
record expires and a text request triggers the reset, and finally json
requests re-admit and cache a json payload under the same fingerprint. -/
def kindChangeTrace : WorldState :=
  runTrace cacheOnlyConfig sampleGen (emptyState 2)
    [ { query := "Q", outputSchema := some .text, now := 0 },
      { query := "Q", outputSchema := some .text, now := 0 },
      { query := "Q", outputSchema := some .json, now := 0 },
      { query := "Q", outputSchema := some .text, now := 86400001 },
      { query := "Q", outputSchema := some .json, now := 86400002 } ]

/-- Decidable equality for Except results, so that concrete store runs can be
checked by evaluation. -/
instance {ε α : Type} [DecidableEq ε] [DecidableEq α] : DecidableEq (Except ε α) := fun a b =>
  match a, b with
  | .error e, .error f =>
      if h : e = f then .isTrue (congrArg Except.error h)
      else .isFalse fun hh => h (Except.error.inj hh)
  | .error _, .ok _ => .isFalse fun hh => Except.noConfusion hh
  | .ok _, .error _ => .isFalse fun hh => Except.noConfusion hh
  | .ok a, .ok b =>
      if h : a = b then .isTrue (congrArg Except.ok h)
      else .isFalse fun hh => h (Except.ok.inj hh)

/-! Theorems. First general lemmas about the embedded stores, then one theorem
(plus counterexamples and witnesses where needed) per specification claim. -/

theorem StrMap.get_set {β : Type} (m : StrMap β) (k k' : String) (v : β) :
    (m.set k v).get k' = if k' = k then some v else m.get k' := by
  induction m with
  | nil =>
      by_cases h : k' = k <;> simp [set, get, h]
  | cons hd tl ih =>
      obtain ⟨k₀, v₀⟩ := hd
      simp only [set]
      by_cases hk : k = k₀
      · subst hk
        by_cases h : k' = k <;> simp [get, h]
      · by_cases h : k' = k₀
        · have hne : ¬ k' = k := fun hh => hk (by rw [← hh, h])
          have hk0 : ¬ k₀ = k := fun hh => hk hh.symm
          simp [get, h, hne, hk, hk0]
        · simp [get, h, hk, ih]

/-- C1: claimed for every cache store implementation that
decrementCacheThreshold decrements by one, floors at zero, returns the new
value, and returns a sentinel leaving the store unchanged on an unknown
fingerprint. This holds for the in-memory store but fails for the Firestore
store: at a record with threshold zero the Firestore implementation writes -1,
strictly below zero. It also fails on an unknown fingerprint, where it errors
instead of returning a sentinel. -/
theorem firestore_decrement_goes_below_zero :
    ((FirestoreCacheStore.decrementCacheThreshold
        ⟨[("h", { query := "q", responseType := .text, cacheThreshold := 0, cacheHits := 0 })],
          86400000, 3⟩ "h").toOption.bind
      fun fs => (fs.cache.get "h").map fun r => r.cacheThreshold) = some (-1) ∧
    ((-1 : Int) < 0) ∧
    (FirestoreCacheStore.decrementCacheThreshold ⟨[], 86400000, 3⟩ "h") =
      .error "TypeError: cannot read properties of undefined" := by
  decide

/-- C1 (amended): the in-memory decrementCacheThreshold decrements the stored
countdown by one, floors at zero, returns the value after the mutation, and on
an unknown fingerprint changes nothing and returns the sentinel -1; the
Firestore decrementCacheThreshold decrements by one with no floor (it can go
below zero), returns a write result rather than the new value, and fails on an
unknown fingerprint. -/
theorem decrementCacheThreshold_contract (s : InMemoryCacheStore)
    (fs : FirestoreCacheStore) (h : String) :
    (match s.cache.get h with
     | some r =>
         (s.decrementCacheThreshold h).2 =
           (if r.cacheThreshold = 0 then r.cacheThreshold else r.cacheThreshold - 1) ∧
         (s.decrementCacheThreshold h).1.cache.get h =
           some { r with
                    cacheThreshold :=
                      if r.cacheThreshold = 0 then r.cacheThreshold
                      else r.cacheThreshold - 1 } ∧
         (∀ h', h' ≠ h → (s.decrementCacheThreshold h).1.cache.get h' = s.cache.get h')
     | none => s.decrementCacheThreshold h = (s, -1)) ∧
    (match fs.cache.get h with
     | some r =>
         fs.decrementCacheThreshold h =
           .ok { fs with
                   cache := fs.cache.set h { r with cacheThreshold := r.cacheThreshold - 1 } }
     | none =>
         fs.decrementCacheThreshold h =
           .error "TypeError: cannot read properties of undefined") := by
  constructor
  · cases hg : s.cache.get h with
    | some r =>
        obtain ⟨q, rt, ct, chs, resp, exp, la, lu⟩ := r
        simp only [hg]
        refine ⟨?_, ?_, ?_⟩
        · by_cases ht : ct = 0 <;>
            simp [InMemoryCacheStore.decrementCacheThreshold, hg, ht]
        · by_cases ht : ct = 0 <;>
            simp [InMemoryCacheStore.decrementCacheThreshold, hg, ht, StrMap.get_set]
        · intro h' hne
          by_cases ht : ct = 0 <;>
            simp [InMemoryCacheStore.decrementCacheThreshold, hg, ht, StrMap.get_set, hne]
    | none => simp [InMemoryCacheStore.decrementCacheThreshold, hg]
  · cases hg : fs.cache.get h with
    | some r => simp [FirestoreCacheStore.decrementCacheThreshold, hg]
    | none => simp [FirestoreCacheStore.decrementCacheThreshold, hg]

/-- C2 counterexample: with admission threshold 1, a generator that always
succeeds, and two identical requests from empty stores, the reachable store
state contains a record with threshold 0 and no payload, refuting the claimed
invariant; the second sighting decrements 1 to 0 without ever setting the
must-cache mark, so the payload is never attached. -/
theorem threshold_zero_without_payload_reachable :
    (runTrace cacheOnlyConfig sampleGen (emptyState 1)
        [{ query := "Q", now := 0 }, { query := "Q", now := 0 }]).cacheStore.cache.get "Q" =
      some { query := "Q", responseType := .text, cacheThreshold := 0, cacheHits := 0 } := by
  decide

/-- Setting a record that satisfies the admission bound preserves the
invariant, needing it only away from the written fingerprint. -/
theorem admissionInvariant_set (s : InMemoryCacheStore) (hash : String)
    (r : CacheRecord) (hinv : admissionInvariantExcept s hash)
    (hr : r.response = none → 2 ≤ r.cacheThreshold) :
    admissionInvariant { s with cache := s.cache.set hash r } := by
  intro h' r' hget hresp
  rw [StrMap.get_set] at hget
  by_cases he : h' = hash
  · rw [if_pos he] at hget
    cases hget
    exact hr hresp
  · rw [if_neg he] at hget
    exact hinv h' r' hget hresp he

/-- The full invariant gives the invariant away from any fingerprint. -/
theorem admissionInvariantExcept_of_full (s : InMemoryCacheStore)
    (hash : String) (hinv : admissionInvariant s) :
    admissionInvariantExcept s hash :=
  fun h' r' hget hresp _ => hinv h' r' hget hresp

/-- addQuery keeps the invariant: it writes a fresh no-payload record at the
configured threshold (and on the unreachable empty-query error the pipeline
keeps the old store). -/
theorem addQuery_invariant (s : InMemoryCacheStore) (q : String)
    (rt : ResponseType) (h : Option String)
    (hN : 2 ≤ s.cacheQueryAfterThreshold) (hinv : admissionInvariant s) :
    admissionInvariant (((s.addQuery q rt h).toOption).getD s) ∧
    (((s.addQuery q rt h).toOption).getD s).cacheQueryAfterThreshold =
      s.cacheQueryAfterThreshold := by
  unfold InMemoryCacheStore.addQuery
  by_cases hq : q = ""
  · simpa [hq] using ⟨hinv, rfl⟩
  · simp only [hq, if_neg, ite_false]
    refine ⟨?_, rfl⟩
    exact admissionInvariant_set s _ _
      (admissionInvariantExcept_of_full s _ hinv) (fun _ => hN)

/-- resetCache keeps the invariant: it restores the configured threshold while
clearing the payload. -/
theorem resetCache_invariant (s : InMemoryCacheStore) (hash : String) (now : Nat)
    (hN : 2 ≤ s.cacheQueryAfterThreshold) (hinv : admissionInvariant s) :
    admissionInvariant (s.resetCache hash now) ∧
    (s.resetCache hash now).cacheQueryAfterThreshold = s.cacheQueryAfterThreshold := by
  unfold InMemoryCacheStore.resetCache
  cases hg : s.cache.get hash with
  | none => exact ⟨hinv, rfl⟩
  | some r =>
      refine ⟨?_, rfl⟩
      exact admissionInvariant_set s _ _
        (admissionInvariantExcept_of_full s _ hinv) (fun _ => hN)

/-- updateLastUsed keeps the invariant: it touches only observability fields. -/
theorem updateLastUsed_invariant (s : InMemoryCacheStore) (hash : String) (now : Nat)
    (hinv : admissionInvariant s) :
    admissionInvariant (s.updateLastUsed hash now) ∧
    (s.updateLastUsed hash now).cacheQueryAfterThreshold = s.cacheQueryAfterThreshold := by
  unfold InMemoryCacheStore.updateLastUsed
  cases hg : s.cache.get hash with
  | none => exact ⟨hinv, rfl⟩
  | some r =>
      refine ⟨?_, rfl⟩
      exact admissionInvariant_set s _ _
        (admissionInvariantExcept_of_full s _ hinv)
        (fun hresp => hinv hash r hg hresp)

/-- The decrement branch of the cache lookup: when the mark fires, only the
record at the looked-up fingerprint can drop below the bound and the record is
present for the subsequent write; when it does not fire, the invariant is
preserved outright. -/
theorem decrement_branch_invariant (s : InMemoryCacheStore) (H : String)
    (r : CacheRecord) (hg : s.cache.get H = some r)
    (_hN : 2 ≤ s.cacheQueryAfterThreshold) (hinv : admissionInvariant s) :
    ((s.decrementCacheThreshold H).1.cacheQueryAfterThreshold = s.cacheQueryAfterThreshold) ∧
    (((s.decrementCacheThreshold H).2 - 1 == 0) = true →
        admissionInvariantExcept (s.decrementCacheThreshold H).1 H ∧
        ∃ r', (s.decrementCacheThreshold H).1.cache.get H = some r') ∧
    (((s.decrementCacheThreshold H).2 - 1 == 0) = false →
        admissionInvariant (s.decrementCacheThreshold H).1) := by
  unfold InMemoryCacheStore.decrementCacheThreshold
  simp only [hg]
  by_cases ht : r.cacheThreshold = 0
  · simp only [ht, ne_eq, not_true_eq_false, ite_false]
    refine ⟨by trivial, ?_, ?_⟩
    · intro hb
      refine ⟨?_, ⟨r, by rw [StrMap.get_set]; simp⟩⟩
      intro h' rr hget hresp hne
      rw [StrMap.get_set, if_neg hne] at hget
      exact hinv h' rr hget hresp
    · intro _
      exact admissionInvariant_set s H r
        (admissionInvariantExcept_of_full s H hinv)
        (fun hresp => hinv H r hg hresp)
  · simp only [ht, ne_eq, not_false_eq_true, ite_true]
    refine ⟨by trivial, ?_, ?_⟩
    · intro hb
      refine ⟨?_, ⟨{ r with cacheThreshold := r.cacheThreshold - 1 },
        by rw [StrMap.get_set]; simp⟩⟩
      intro h' rr hget hresp hne
      rw [StrMap.get_set, if_neg hne] at hget
      exact hinv h' rr hget hresp
    · intro hb
      apply admissionInvariant_set s H _
        (admissionInvariantExcept_of_full s H hinv)
      intro hresp
      simp only at hresp
      have h2 : 2 ≤ r.cacheThreshold := hinv H r hg hresp
      have hb' : r.cacheThreshold - 1 - 1 ≠ 0 := by
        intro hh
        rw [hh] at hb
        simp at hb
      simp only
      omega

/-- The cache lookup phase preserves the admission invariant except possibly
at a just-marked record, which is then present and awaiting its write. -/
theorem cacheLookup_invariant (s : InMemoryCacheStore) (H qwc : String)
    (fmt : OutputFormat) (now : Nat)
    (hN : 2 ≤ s.cacheQueryAfterThreshold) (hinv : admissionInvariant s) :
    (cacheLookup s H qwc fmt now).2.cacheQueryAfterThreshold = s.cacheQueryAfterThreshold ∧
    ((cacheLookup s H qwc fmt now).1 = .miss true →
        admissionInvariantExcept (cacheLookup s H qwc fmt now).2 H ∧
        ∃ r, (cacheLookup s H qwc fmt now).2.cache.get H = some r) ∧
    ((cacheLookup s H qwc fmt now).1 ≠ .miss true →
        admissionInvariant (cacheLookup s H qwc fmt now).2) := by
  unfold cacheLookup InMemoryCacheStore.getRecord
  cases hg : s.cache.get H with
  | none =>
      simp only [hg]
      refine ⟨(addQuery_invariant s qwc fmt.tag (some H) hN hinv).2, ?_, ?_⟩
      · intro hb; simp at hb
      · intro _; exact (addQuery_invariant s qwc fmt.tag (some H) hN hinv).1
  | some cachedQuery =>
      simp only [hg]
      cases hresp : cachedQuery.response with
      | none =>
          simp only
          have hd := decrement_branch_invariant s H cachedQuery hg hN hinv
          refine ⟨hd.1, ?_, ?_⟩
          · intro hb
            exact hd.2.1 (by simpa using hb)
          · intro hb
            apply hd.2.2
            cases hbb : ((s.decrementCacheThreshold H).2 - 1 == 0) with
            | false => rfl
            | true => exact absurd (by simp [hbb]) hb
      | some payload =>
          simp only
          by_cases hcond : payload.present = true ∧ cachedQuery.responseType = fmt.tag
          · rw [if_pos hcond]
            by_cases hexp : InMemoryCacheStore.isExpired cachedQuery now = true
            · rw [if_pos hexp]
              refine ⟨(resetCache_invariant s H now hN hinv).2, ?_, ?_⟩
              · intro hb; simp at hb
              · intro _; exact (resetCache_invariant s H now hN hinv).1
            · rw [if_neg hexp]
              have hu := updateLastUsed_invariant s H now hinv
              cases hp : parseCachedResponse fmt cachedQuery.responseType payload with
              | some pr =>
                  obtain ⟨rv, mm⟩ := pr
                  simp only
                  refine ⟨hu.2, ?_, ?_⟩
                  · intro hb; simp at hb
                  · intro _; exact hu.1
              | none =>
                  simp only
                  have ha := addQuery_invariant (s.updateLastUsed H now) qwc fmt.tag
                    (some H) (by rw [hu.2]; exact hN) hu.1
                  refine ⟨by rw [ha.2, hu.2], ?_, ?_⟩
                  · intro hb; simp at hb
                  · intro _; exact ha.1
          · rw [if_neg hcond]
            have hd := decrement_branch_invariant s H cachedQuery hg hN hinv
            refine ⟨hd.1, ?_, ?_⟩
            · intro hb
              exact hd.2.1 (by simpa using hb)
            · intro hb
              apply hd.2.2
              cases hbb : ((s.decrementCacheThreshold H).2 - 1 == 0) with
              | false => rfl
              | true => exact absurd (by simp [hbb]) hb

/-- A well-behaved generator makes the agent generation step succeed with
truthy payload fields in every history mode. -/
theorem agentGenerate_ok (cfg : ChatEndpointConfig) (g : Generator)
    (hs : InMemoryChatHistoryStore) (req : ChatEndpointRequest)
    (context : Option String) (historyOpt : Option (List Message))
    (chatId : Option String) (hg : Generator.wellBehaved g) :
    ∃ out hs' cid, agentGenerate cfg g hs req context historyOpt chatId =
        .ok (out, hs', cid) ∧
      out.text ≠ "" ∧ out.output ≠ "" ∧
      out.mediaContentType ≠ "" ∧ out.mediaUrl ≠ "" := by
  unfold agentGenerate
  by_cases hh : cfg.enableChatHistory
  · simp only [hh, if_true]
    cases chatId with
    | none =>
        obtain ⟨out, hout, h1, h2, h3, h4⟩ := hg ⟨req.query, context, none⟩
        rw [hout]
        exact ⟨out, _, _, rfl, h1, h2, h3, h4⟩
    | some c =>
        obtain ⟨out, hout, h1, h2, h3, h4⟩ := hg ⟨req.query, context, some (historyOpt.getD [])⟩
        simp only [hout]
        exact ⟨out, _, _, rfl, h1, h2, h3, h4⟩
  · simp only [hh, if_false]
    obtain ⟨out, hout, h1, h2, h3, h4⟩ := hg ⟨req.query, context, none⟩
    rw [hout]
    exact ⟨out, _, _, rfl, h1, h2, h3, h4⟩

/-- With the mark unset the cache write is a no-op. -/
theorem cacheWrite_unmarked (cfg : ChatEndpointConfig) (cs : InMemoryCacheStore)
    (fmt : OutputFormat) (H : String) (out : GenOutput) (now : Nat) :
    cacheWrite cfg cs fmt H out false now = .ok cs := by
  simp [cacheWrite]

/-- With the mark set, a nonempty hash, a present record, and truthy generator
payload fields, the cache write succeeds and restores the invariant by
attaching the payload at the marked fingerprint. -/
theorem cacheWrite_marked_invariant (cfg : ChatEndpointConfig)
    (cs : InMemoryCacheStore) (fmt : OutputFormat) (H : String)
    (out : GenOutput) (now : Nat)
    (hce : cfg.enableCache = true) (hH : H ≠ "")
    (r : CacheRecord) (hrec : cs.cache.get H = some r)
    (hinvE : admissionInvariantExcept cs H)
    (h1 : out.text ≠ "") (h2 : out.output ≠ "")
    (h3 : out.mediaContentType ≠ "") (h4 : out.mediaUrl ≠ "") :
    ∃ cs', cacheWrite cfg cs fmt H out true now = .ok cs' ∧
      admissionInvariant cs' ∧
      cs'.cacheQueryAfterThreshold = cs.cacheQueryAfterThreshold := by
  unfold cacheWrite
  rw [if_pos (show cfg.enableCache = true ∧ true = true from ⟨hce, rfl⟩)]
  cases fmt with
  | json =>
      have hc : ¬(H = "" ∨ (CachePayload.str out.output).present = false) := by
        simp [hH, CachePayload.present, h2]
      unfold InMemoryCacheStore.cacheResponse
      rw [if_neg hc]
      simp only [hrec]
      exact ⟨_, rfl,
        admissionInvariant_set cs H _ hinvE (by intro hresp; simp at hresp), rfl⟩
  | media ct =>
      have hc : ¬(H = "" ∨
          (CachePayload.media out.mediaContentType out.mediaUrl).present = false) := by
        simp [hH, CachePayload.present]
      rw [if_pos (show out.mediaContentType ≠ "" ∧ out.mediaUrl ≠ "" from ⟨h3, h4⟩)]
      unfold InMemoryCacheStore.cacheResponse
      rw [if_neg hc]
      simp only [hrec]
      exact ⟨_, rfl,
        admissionInvariant_set cs H _ hinvE (by intro hresp; simp at hresp), rfl⟩
  | text =>
      have hc : ¬(H = "" ∨ (CachePayload.str out.text).present = false) := by
        simp [hH, CachePayload.present, h1]
      unfold InMemoryCacheStore.cacheResponse
      rw [if_neg hc]
      simp only [hrec]
      exact ⟨_, rfl,
        admissionInvariant_set cs H _ hinvE (by intro hresp; simp at hresp), rfl⟩

/-- The cache-hit return path never touches the cache store beyond what the
lookup already did. -/
theorem hitReturn_cacheStore (cfg : ChatEndpointConfig) (cs : InMemoryCacheStore)
    (hs : InMemoryChatHistoryStore) (req : ChatEndpointRequest)
    (chatId : Option String) (rv : ResponseValue) (mm : Message) :
    (hitReturn cfg cs hs req chatId rv mm).state.cacheStore = cs := by
  unfold hitReturn
  by_cases hh : cfg.enableChatHistory <;> cases chatId <;> simp [hh]

/-- The generation phase preserves the admission invariant: after an unmarked
miss the store is untouched, and after a marked miss the write restores the
invariant. -/
theorem generationPhase_invariant (cfg : ChatEndpointConfig) (g : Generator)
    (cs : InMemoryCacheStore) (hs : InMemoryChatHistoryStore)
    (req : ChatEndpointRequest) (fmt : OutputFormat) (H : String)
    (historyOpt : Option (List Message)) (chatId : Option String) (mark : Bool)
    (hg : Generator.wellBehaved g) (hrag : ragReliable cfg)
    (hcase : (mark = false ∧ admissionInvariant cs) ∨
      (mark = true ∧ cfg.enableCache = true ∧ H ≠ "" ∧
        admissionInvariantExcept cs H ∧ ∃ r, cs.cache.get H = some r)) :
    admissionInvariant
      (generationPhase cfg g cs hs req fmt H historyOpt chatId mark).state.cacheStore ∧
    (generationPhase cfg g cs hs req fmt H historyOpt chatId mark).state.cacheStore.cacheQueryAfterThreshold =
      cs.cacheQueryAfterThreshold := by
  obtain ⟨ctx, hctx⟩ := hrag req.query
  obtain ⟨out, hs', cid, hgen, h1, h2, h3, h4⟩ :=
    agentGenerate_ok cfg g hs req ctx historyOpt chatId hg
  unfold generationPhase
  simp only [hctx, hgen]
  rcases hcase with ⟨hm, hinv⟩ | ⟨hm, hce, hH, hinvE, r, hrec⟩
  · subst hm
    simp only [cacheWrite_unmarked]
    exact ⟨hinv, by trivial⟩
  · subst hm
    obtain ⟨cs', hw, hinv', hthr⟩ :=
      cacheWrite_marked_invariant cfg cs fmt H out req.now hce hH r hrec hinvE h1 h2 h3 h4
    simp only [hw]
    exact ⟨hinv', hthr⟩

/-- One full handler run preserves the admission invariant when the generator
is well behaved, retrieval is reliable, and the configured threshold is at
least 2. -/
theorem handleRequest_invariant (cfg : ChatEndpointConfig) (g : Generator)
    (st : WorldState) (req : ChatEndpointRequest)
    (hg : Generator.wellBehaved g) (hrag : ragReliable cfg)
    (hN : 2 ≤ st.cacheStore.cacheQueryAfterThreshold)
    (hinv : admissionInvariant st.cacheStore) :
    admissionInvariant (handleRequest cfg g st req).state.cacheStore ∧
    (handleRequest cfg g st req).state.cacheStore.cacheQueryAfterThreshold =
      st.cacheStore.cacheQueryAfterThreshold := by
  unfold handleRequest
  by_cases hq : req.query = ""
  · rw [if_pos hq]
    exact ⟨hinv, by trivial⟩
  · rw [if_neg hq]
    cases hl : historyLoad cfg.enableChatHistory st.historyStore (normalizeChatId req.chatId) with
    | error msg =>
        simp only [hl]
        exact ⟨hinv, by trivial⟩
    | ok historyOpt =>
        simp only [hl]
        by_cases hcache : cfg.enableCache = true
        · rw [if_pos hcache]
          by_cases hqh : generateHash (queryWithContextOf req.query historyOpt) = ""
          · rw [if_pos hqh]
            exact ⟨hinv, by trivial⟩
          · rw [if_neg hqh]
            have hlk := cacheLookup_invariant st.cacheStore
              (generateHash (queryWithContextOf req.query historyOpt))
              (queryWithContextOf req.query historyOpt)
              (req.outputSchema.getD (cfg.outputSchema.getD .text)) req.now hN hinv
            cases hcl : cacheLookup st.cacheStore
              (generateHash (queryWithContextOf req.query historyOpt))
              (queryWithContextOf req.query historyOpt)
              (req.outputSchema.getD (cfg.outputSchema.getD .text)) req.now with
            | mk o cs =>
                rw [hcl] at hlk
                cases o with
                | hit rv mm =>
                    simp only
                    rw [hitReturn_cacheStore]
                    exact ⟨hlk.2.2 (by simp), hlk.1⟩
                | miss mark =>
                    simp only
                    cases mark with
                    | false =>
                        have hgen := generationPhase_invariant cfg g cs st.historyStore req
                          (req.outputSchema.getD (cfg.outputSchema.getD .text))
                          (generateHash (queryWithContextOf req.query historyOpt))
                          historyOpt (normalizeChatId req.chatId) false hg hrag
                          (Or.inl ⟨rfl, hlk.2.2 (by simp)⟩)
                        exact ⟨hgen.1, by rw [hgen.2, hlk.1]⟩
                    | true =>
                        obtain ⟨hinvE, r, hr⟩ := hlk.2.1 rfl
                        have hgen := generationPhase_invariant cfg g cs st.historyStore req
                          (req.outputSchema.getD (cfg.outputSchema.getD .text))
                          (generateHash (queryWithContextOf req.query historyOpt))
                          historyOpt (normalizeChatId req.chatId) true hg hrag
                          (Or.inr ⟨rfl, hcache, hqh, hinvE, r, hr⟩)
                        exact ⟨hgen.1, by rw [hgen.2, hlk.1]⟩
        · rw [if_neg hcache]
          have hgen := generationPhase_invariant cfg g st.cacheStore st.historyStore req
            (req.outputSchema.getD (cfg.outputSchema.getD .text)) ""
            historyOpt (normalizeChatId req.chatId) false hg hrag (Or.inl ⟨rfl, hinv⟩)
          exact ⟨hgen.1, hgen.2⟩

/-- Admission invariant preservation along any request trace. -/
theorem runTrace_invariant (cfg : ChatEndpointConfig) (g : Generator)
    (reqs : List ChatEndpointRequest)
    (hg : Generator.wellBehaved g) (hrag : ragReliable cfg) :
    ∀ st : WorldState, 2 ≤ st.cacheStore.cacheQueryAfterThreshold →
      admissionInvariant st.cacheStore →
      admissionInvariant (runTrace cfg g st reqs).cacheStore := by
  induction reqs with
  | nil => intro st _ hinv; exact hinv
  | cons req rest ih =>
      intro st hN hinv
      have hstep := handleRequest_invariant cfg g st req hg hrag hN hinv
      exact ih _ (by rw [hstep.2]; exact hN) hstep.1

/-- C2 (amended): the claimed invariant fails in general (see the reachable
counterexample with threshold 1), but holds whenever the configured admission
threshold is at least 2, every generator call succeeds with truthy payload
fields, and context retrieval never fails: then in every store state reachable
by a request trace from an invariant-satisfying state, a record with no cached
payload has a strictly positive threshold (in fact at least 2), and the
payload is attached in the same request step in which the must-cache mark
fires. -/
theorem cache_admission_invariant (cfg : ChatEndpointConfig) (g : Generator)
    (st : WorldState) (reqs : List ChatEndpointRequest)
    (hg : Generator.wellBehaved g) (hrag : ragReliable cfg)
    (hN : 2 ≤ st.cacheStore.cacheQueryAfterThreshold)
    (hinv : admissionInvariant st.cacheStore) :
    ∀ h r, (runTrace cfg g st reqs).cacheStore.cache.get h = some r →
      r.response = none → 0 < r.cacheThreshold := by
  intro h r hget hresp
  have := runTrace_invariant cfg g reqs hg hrag st hN hinv h r hget hresp
  omega

/-- C2 witness: the amended invariant theorem applied to a concrete
cache-enabled endpoint, a concrete well-behaved generator, and a one-request
trace from empty stores. -/
theorem cache_admission_invariant_witness :
    Generator.wellBehaved sampleGen ∧ ragReliable cacheOnlyConfig ∧
    2 ≤ (emptyState 2).cacheStore.cacheQueryAfterThreshold ∧
    admissionInvariant (emptyState 2).cacheStore ∧
    (∀ h r, (runTrace cacheOnlyConfig sampleGen (emptyState 2)
        [{ query := "Q", now := 0 }]).cacheStore.cache.get h = some r →
      r.response = none → 0 < r.cacheThreshold) := by
  have hg : Generator.wellBehaved sampleGen := fun inp =>
    ⟨⟨"R", "OUT", "ct", "url"⟩, rfl, by decide, by decide, by decide, by decide⟩
  have hrag : ragReliable cacheOnlyConfig := fun q => ⟨none, rfl⟩
  have hN : (2 : Int) ≤ (emptyState 2).cacheStore.cacheQueryAfterThreshold := by decide
  have hinv : admissionInvariant (emptyState 2).cacheStore := by
    intro h r hget
    simp [emptyState, StrMap.get] at hget
  exact ⟨hg, hrag, hN, hinv,
    cache_admission_invariant cacheOnlyConfig sampleGen (emptyState 2) _ hg hrag hN hinv⟩

/-- C3: a cache record whose stored responseType differs from the declared
output kind of the request never produces a cache hit: the lookup phase
returns a miss on it, and at the endpoint level (history and RAG disabled, so
the fingerprint is the query itself) the request falls through to exactly one
fresh generator invocation instead of being answered from the record. -/
theorem kind_mismatch_never_hits (cfg : ChatEndpointConfig) (g : Generator)
    (st : WorldState) (req : ChatEndpointRequest) (r : CacheRecord)
    (hce : cfg.enableCache = true) (hch : cfg.enableChatHistory = false)
    (hrg : cfg.enableRAG = false) (hq : req.query ≠ "")
    (hrec : st.cacheStore.cache.get (generateHash req.query) = some r)
    (hne : r.responseType ≠ (req.outputSchema.getD (cfg.outputSchema.getD .text)).tag) :
    (∃ mark s', cacheLookup st.cacheStore (generateHash req.query) req.query
        (req.outputSchema.getD (cfg.outputSchema.getD .text)) req.now = (.miss mark, s')) ∧
    (handleRequest cfg g st req).genCalls = 1 := by
  have hmiss : ∃ mark s', cacheLookup st.cacheStore (generateHash req.query) req.query
      (req.outputSchema.getD (cfg.outputSchema.getD .text)) req.now = (.miss mark, s') := by
    unfold cacheLookup InMemoryCacheStore.getRecord
    simp only [hrec]
    cases hresp : r.response with
    | none => exact ⟨_, _, rfl⟩
    | some payload =>
        have hcond : ¬(payload.present = true ∧
            r.responseType = (req.outputSchema.getD (cfg.outputSchema.getD .text)).tag) :=
          fun hc => hne hc.2
        exact ⟨_, _, by simp only [if_neg hcond]; rfl⟩
  refine ⟨hmiss, ?_⟩
  obtain ⟨mark, s', hcl⟩ := hmiss
  unfold handleRequest
  rw [if_neg hq]
  have hload : historyLoad cfg.enableChatHistory st.historyStore (normalizeChatId req.chatId) =
      .ok none := by
    simp [historyLoad, hch]
  simp only [hload]
  rw [if_pos hce]
  rw [if_neg (show ¬(generateHash (queryWithContextOf req.query none) = "") from hq)]
  have hqwc : queryWithContextOf req.query none = req.query := rfl
  rw [hqwc]
  rw [hcl]
  unfold generationPhase
  have hctx : ragContext cfg req.query = .ok none := by simp [ragContext, hrg]
  simp only [hctx]
  unfold agentGenerate
  simp only [hch, Bool.false_eq_true, if_false]
  cases hgen : g ⟨req.query, none, none⟩ with
  | error e => rfl
  | ok out =>
      simp only
      cases hw : cacheWrite cfg s'
          (req.outputSchema.getD (cfg.outputSchema.getD .text))
          (generateHash req.query) out mark req.now with
      | error e => simp only [hw]
      | ok cs' => simp only [hw]

/-- C3 witness: the kind-isolation theorem applied to a concrete store holding
a json-kind cached payload under the fingerprint of query Q, and a request
declaring text output for the same query. -/
theorem kind_mismatch_never_hits_witness :
    (∃ mark s', cacheLookup
        ⟨[("Q", { query := "Q", responseType := .json, cacheThreshold := 1,
                  cacheHits := 0, response := some (.str "P") })], 86400000, 3⟩
        (generateHash "Q") "Q" .text 0 = (.miss mark, s')) ∧
    (handleRequest cacheOnlyConfig sampleGen
        ⟨⟨[("Q", { query := "Q", responseType := .json, cacheThreshold := 1,
                   cacheHits := 0, response := some (.str "P") })], 86400000, 3⟩,
         ⟨[], 0⟩⟩
        { query := "Q", now := 0 }).genCalls = 1 :=
  kind_mismatch_never_hits cacheOnlyConfig sampleGen
    ⟨⟨[("Q", { query := "Q", responseType := .json, cacheThreshold := 1,
               cacheHits := 0, response := some (.str "P") })], 86400000, 3⟩,
     ⟨[], 0⟩⟩
    { query := "Q", now := 0 }
    { query := "Q", responseType := .json, cacheThreshold := 1,
      cacheHits := 0, response := some (.str "P") }
    rfl rfl rfl (by decide) (by decide) (by decide)

/-- C4 counterexample: a lookup that finds a record with a present payload and
an expiry strictly before now is NOT always reset: when the declared output
kind differs from the stored kind, the pipeline takes the kind-mismatch branch
first, so the record keeps its stale payload and its countdown is only
decremented (here from 1 to 0), not restored to the configured threshold 3. -/
theorem expired_kind_mismatch_not_reset :
    (cacheLookup
        ⟨[("H", { query := "Q", responseType := .json, cacheThreshold := 1,
                  cacheHits := 5, response := some (.str "P"), expiry := some 10 })],
          86400000, 3⟩
        "H" "Q" .text 20).1 = .miss false ∧
    (cacheLookup
        ⟨[("H", { query := "Q", responseType := .json, cacheThreshold := 1,
                  cacheHits := 5, response := some (.str "P"), expiry := some 10 })],
          86400000, 3⟩
        "H" "Q" .text 20).2.cache.get "H" =
      some { query := "Q", responseType := .json, cacheThreshold := 0,
             cacheHits := 5, response := some (.str "P"), expiry := some 10 } := by
  decide

/-- C4 (amended): when the lookup finds a record whose stored kind matches the
declared output kind, whose payload is present, and whose expiry is strictly
before now, the stale payload is never served: the pipeline treats the lookup
as a miss with no mark and resets the record, clearing the payload and
restoring the countdown to the configured threshold, so the next sighting is
again the first of a fresh admission cycle. A kind-mismatched lookup of an
expired record is also a miss but is only decremented, not reset. -/
theorem expired_matching_hit_resets (s : InMemoryCacheStore) (H qwc : String)
    (fmt : OutputFormat) (now : Nat) (r : CacheRecord) (p : CachePayload) (e : Nat)
    (hrec : s.cache.get H = some r) (hresp : r.response = some p)
    (hpres : p.present = true) (htag : r.responseType = fmt.tag)
    (hexp : r.expiry = some e) (hlt : e < now) :
    cacheLookup s H qwc fmt now = (.miss false, s.resetCache H now) ∧
    (cacheLookup s H qwc fmt now).2.cache.get H =
      some { r with
               response := none
               cacheThreshold := s.cacheQueryAfterThreshold
               cacheHits := r.cacheHits + 1
               lastAccessed := some now } := by
  have hmain : cacheLookup s H qwc fmt now = (.miss false, s.resetCache H now) := by
    unfold cacheLookup InMemoryCacheStore.getRecord
    simp only [hrec]
    simp only [hresp]
    rw [if_pos ⟨hpres, htag⟩]
    rw [if_pos (show InMemoryCacheStore.isExpired r now = true by
      simp [InMemoryCacheStore.isExpired, hexp, hlt])]
  refine ⟨hmain, ?_⟩
  rw [hmain]
  show (s.resetCache H now).cache.get H = _
  unfold InMemoryCacheStore.resetCache
  simp only [hrec, StrMap.get_set]
  exact if_pos trivial

/-- C4 witness: the reset theorem applied to a concrete expired json-kind
record looked up by a json-kind request at a time past its expiry. -/
theorem expired_matching_hit_resets_witness :
    cacheLookup
        ⟨[("H", { query := "Q", responseType := .json, cacheThreshold := 1,
                  cacheHits := 5, response := some (.str "P"), expiry := some 10 })],
          86400000, 3⟩ "H" "Q" .json 20 =
      (.miss false,
        InMemoryCacheStore.resetCache
          ⟨[("H", { query := "Q", responseType := .json, cacheThreshold := 1,
                    cacheHits := 5, response := some (.str "P"), expiry := some 10 })],
            86400000, 3⟩ "H" 20) ∧
    (cacheLookup
        ⟨[("H", { query := "Q", responseType := .json, cacheThreshold := 1,
                  cacheHits := 5, response := some (.str "P"), expiry := some 10 })],
          86400000, 3⟩ "H" "Q" .json 20).2.cache.get "H" =
      some { query := "Q", responseType := .json, cacheThreshold := 3,
             cacheHits := 6, response := none, expiry := some 10,
             lastAccessed := some 20 } :=
  expired_matching_hit_resets
    ⟨[("H", { query := "Q", responseType := .json, cacheThreshold := 1,
              cacheHits := 5, response := some (.str "P"), expiry := some 10 })],
      86400000, 3⟩ "H" "Q" .json 20
    { query := "Q", responseType := .json, cacheThreshold := 1,
      cacheHits := 5, response := some (.str "P"), expiry := some 10 }
    (.str "P") 10 rfl rfl (by decide) rfl rfl (by decide)

/-- A string with a nonempty left part is nonempty. -/
theorem append_ne_empty_left (s t : String) (h : s ≠ "") : s ++ t ≠ "" := by
  intro hh
  apply h
  have hl : (s ++ t).length = 0 := by rw [hh]; rfl
  rw [String.length_append] at hl
  have h0 : s.length = 0 := by omega
  have hd : s.data.length = 0 := h0
  exact String.ext (List.length_eq_zero.mp hd)

/-- A fresh, kind-matching, parseable record produces a cache hit, and the
lookup touches the store only through updateLastUsed. -/
theorem cacheLookup_hit (s : InMemoryCacheStore) (H qwc : String)
    (fmt : OutputFormat) (now : Nat) (r : CacheRecord) (p : CachePayload)
    (rv : ResponseValue) (mm : Message)
    (hrec : s.cache.get H = some r) (hresp : r.response = some p)
    (hpres : p.present = true) (htag : r.responseType = fmt.tag)
    (hnexp : InMemoryCacheStore.isExpired r now = false)
    (hparse : parseCachedResponse fmt r.responseType p = some (rv, mm)) :
    cacheLookup s H qwc fmt now = (.hit rv mm, s.updateLastUsed H now) := by
  unfold cacheLookup InMemoryCacheStore.getRecord
  simp only [hrec]
  simp only [hresp]
  rw [if_pos ⟨hpres, htag⟩]
  rw [if_neg (by rw [hnexp]; exact Bool.false_ne_true)]
  simp only [hparse]

/-- C5: a cache hit on a history-enabled endpoint weaves the cached response
into chat history. With a valid supplied conversation id, exactly the two new
turns (the user query and the reconstructed model message) are appended to
that conversation, no other conversation changes and no new one is created,
and the same id is returned. Without an id, a new history seeded with the
re-derived system prompt plus the two turns is created under a fresh id,
which is returned to the caller. Generation is skipped entirely either way. -/
theorem cache_hit_history_weaving :
    (∀ (cfg : ChatEndpointConfig) (g : Generator) (st : WorldState)
       (req : ChatEndpointRequest) (c : String) (hmsgs : List Message)
       (lu : Nat) (r : CacheRecord) (p : CachePayload) (rv : ResponseValue)
       (mm : Message),
      cfg.enableChatHistory = true → cfg.enableCache = true →
      req.query ≠ "" → req.chatId = some c → c ≠ "" →
      st.historyStore.history.get c = some ⟨hmsgs, lu⟩ →
      st.cacheStore.cache.get
        (generateHash (req.query ++ getChatHistoryAsString hmsgs)) = some r →
      r.response = some p → p.present = true →
      r.responseType = (req.outputSchema.getD (cfg.outputSchema.getD .text)).tag →
      InMemoryCacheStore.isExpired r req.now = false →
      parseCachedResponse (req.outputSchema.getD (cfg.outputSchema.getD .text))
        r.responseType p = some (rv, mm) →
      (handleRequest cfg g st req).result = .success rv (some c) ∧
      (handleRequest cfg g st req).genCalls = 0 ∧
      (handleRequest cfg g st req).state.historyStore.history.get c =
        some ⟨hmsgs ++ [⟨.user, .text req.query⟩, mm], req.now⟩ ∧
      (∀ c', c' ≠ c → (handleRequest cfg g st req).state.historyStore.history.get c' =
        st.historyStore.history.get c') ∧
      (handleRequest cfg g st req).state.historyStore.nextId =
        st.historyStore.nextId) ∧
    (∀ (cfg : ChatEndpointConfig) (g : Generator) (st : WorldState)
       (req : ChatEndpointRequest) (r : CacheRecord) (p : CachePayload)
       (rv : ResponseValue) (mm : Message),
      cfg.enableChatHistory = true → cfg.enableCache = true →
      req.query ≠ "" → req.chatId = none →
      st.cacheStore.cache.get (generateHash req.query) = some r →
      r.response = some p → p.present = true →
      r.responseType = (req.outputSchema.getD (cfg.outputSchema.getD .text)).tag →
      InMemoryCacheStore.isExpired r req.now = false →
      parseCachedResponse (req.outputSchema.getD (cfg.outputSchema.getD .text))
        r.responseType p = some (rv, mm) →
      (handleRequest cfg g st req).result =
        .success rv (some (freshChatId st.historyStore.nextId)) ∧
      (handleRequest cfg g st req).genCalls = 0 ∧
      (handleRequest cfg g st req).state.historyStore.history.get
          (freshChatId st.historyStore.nextId) =
        some ⟨[⟨.system, .text (getSystemPromptText (hitPromptParams cfg))⟩,
               ⟨.user, .text req.query⟩, mm], req.now⟩ ∧
      (handleRequest cfg g st req).state.historyStore.nextId =
        st.historyStore.nextId + 1) := by
  constructor
  · intro cfg g st req c hmsgs lu r p rv mm hch hce hq hcid hcne hgethist hrec
      hresp hpres htag hnexp hparse
    have hnorm : normalizeChatId req.chatId = some c := by
      rw [hcid]; simp [normalizeChatId, hcne]
    have hload : historyLoad cfg.enableChatHistory st.historyStore
        (normalizeChatId req.chatId) = .ok (some hmsgs) := by
      rw [hnorm]
      simp [historyLoad, hch, InMemoryChatHistoryStore.getChatHistory, hgethist,
        Except.map]
    have hqwc : queryWithContextOf req.query (some hmsgs) =
        req.query ++ getChatHistoryAsString hmsgs := rfl
    have hhash : generateHash (queryWithContextOf req.query (some hmsgs)) ≠ "" := by
      rw [hqwc]
      exact append_ne_empty_left req.query _ hq
    have hcl := cacheLookup_hit st.cacheStore
      (generateHash (req.query ++ getChatHistoryAsString hmsgs))
      (req.query ++ getChatHistoryAsString hmsgs)
      (req.outputSchema.getD (cfg.outputSchema.getD .text)) req.now r p rv mm
      hrec hresp hpres htag hnexp hparse
    have hfinal : handleRequest cfg g st req =
        hitReturn cfg
          (st.cacheStore.updateLastUsed
            (generateHash (req.query ++ getChatHistoryAsString hmsgs)) req.now)
          st.historyStore req (normalizeChatId req.chatId) rv mm := by
      unfold handleRequest
      rw [if_neg hq]
      simp only [hload]
      rw [if_pos hce]
      rw [if_neg hhash]
      rw [hqwc]
      rw [hcl]
    have hhit : hitReturn cfg
        (st.cacheStore.updateLastUsed
          (generateHash (req.query ++ getChatHistoryAsString hmsgs)) req.now)
        st.historyStore req (normalizeChatId req.chatId) rv mm =
        ⟨.success rv (some c),
          ⟨st.cacheStore.updateLastUsed
            (generateHash (req.query ++ getChatHistoryAsString hmsgs)) req.now,
           (st.historyStore.addMessages c
             [⟨.user, .text req.query⟩, mm] req.now).1⟩, 0⟩ := by
      unfold hitReturn
      rw [if_pos hch, hnorm]
    rw [hfinal, hhit]
    unfold InMemoryChatHistoryStore.addMessages
    simp only [hgethist]
    refine ⟨by trivial, by trivial, ?_, ?_, by trivial⟩
    · simp only [StrMap.get_set]
      exact if_pos trivial
    · intro c' hne
      simp only [StrMap.get_set]
      exact if_neg hne
  · intro cfg g st req r p rv mm hch hce hq hcid hrec hresp hpres htag hnexp hparse
    have hnorm : normalizeChatId req.chatId = none := by
      rw [hcid]; rfl
    have hload : historyLoad cfg.enableChatHistory st.historyStore
        (normalizeChatId req.chatId) = .ok none := by
      rw [hnorm]
      simp [historyLoad, hch]
    have hqwc : queryWithContextOf req.query none = req.query := rfl
    have hcl := cacheLookup_hit st.cacheStore (generateHash req.query) req.query
      (req.outputSchema.getD (cfg.outputSchema.getD .text)) req.now r p rv mm
      hrec hresp hpres htag hnexp hparse
    have hfinal : handleRequest cfg g st req =
        hitReturn cfg
          (st.cacheStore.updateLastUsed (generateHash req.query) req.now)
          st.historyStore req (normalizeChatId req.chatId) rv mm := by
      unfold handleRequest
      rw [if_neg hq]
      simp only [hload]
      rw [if_pos hce]
      rw [if_neg (show ¬(generateHash (queryWithContextOf req.query none) = "") from hq)]
      rw [hqwc]
      rw [hcl]
    have hhit : hitReturn cfg
        (st.cacheStore.updateLastUsed (generateHash req.query) req.now)
        st.historyStore req (normalizeChatId req.chatId) rv mm =
        ⟨.success rv (some (st.historyStore.addChatHistory
            [⟨.system, .text (getSystemPromptText (hitPromptParams cfg))⟩,
             ⟨.user, .text req.query⟩, mm] req.now).2),
          ⟨st.cacheStore.updateLastUsed (generateHash req.query) req.now,
           (st.historyStore.addChatHistory
            [⟨.system, .text (getSystemPromptText (hitPromptParams cfg))⟩,
             ⟨.user, .text req.query⟩, mm] req.now).1⟩, 0⟩ := by
      unfold hitReturn
      rw [if_pos hch, hnorm]
    rw [hfinal, hhit]
    unfold InMemoryChatHistoryStore.addChatHistory
    refine ⟨by trivial, by trivial, ?_, by trivial⟩
    simp only [StrMap.get_set]
    exact if_pos trivial

/-- C5 witness: the hit-weaving theorem applied to a concrete history-enabled,
cache-enabled endpoint, a conversation c1 with two prior messages, and a fresh
text payload cached under the fingerprint of the query plus that history. -/
theorem cache_hit_history_weaving_witness :
    (handleRequest { enableChatHistory := true, enableCache := true } sampleGen
        ⟨⟨[(generateHash ("Q" ++ getChatHistoryAsString
              [⟨.user, .text "hi"⟩, ⟨.model, .text "yo"⟩]),
            { query := "x", responseType := .text, cacheThreshold := 1,
              cacheHits := 0, response := some (.str "P") })], 86400000, 3⟩,
         ⟨[("c1", ⟨[⟨.user, .text "hi"⟩, ⟨.model, .text "yo"⟩], 0⟩)], 5⟩⟩
        { query := "Q", chatId := some "c1", now := 7 }).result =
      .success (.text "P") (some "c1") ∧
    (handleRequest { enableChatHistory := true, enableCache := true } sampleGen
        ⟨⟨[(generateHash ("Q" ++ getChatHistoryAsString
              [⟨.user, .text "hi"⟩, ⟨.model, .text "yo"⟩]),
            { query := "x", responseType := .text, cacheThreshold := 1,
              cacheHits := 0, response := some (.str "P") })], 86400000, 3⟩,
         ⟨[("c1", ⟨[⟨.user, .text "hi"⟩, ⟨.model, .text "yo"⟩], 0⟩)], 5⟩⟩
        { query := "Q", chatId := some "c1", now := 7 }).state.historyStore.history.get "c1" =
      some ⟨[⟨.user, .text "hi"⟩, ⟨.model, .text "yo"⟩,
             ⟨.user, .text "Q"⟩, ⟨.model, .text "P"⟩], 7⟩ := by
  have h := cache_hit_history_weaving.1
    { enableChatHistory := true, enableCache := true } sampleGen
    ⟨⟨[(generateHash ("Q" ++ getChatHistoryAsString
          [⟨.user, .text "hi"⟩, ⟨.model, .text "yo"⟩]),
        { query := "x", responseType := .text, cacheThreshold := 1,
          cacheHits := 0, response := some (.str "P") })], 86400000, 3⟩,
     ⟨[("c1", ⟨[⟨.user, .text "hi"⟩, ⟨.model, .text "yo"⟩], 0⟩)], 5⟩⟩
    { query := "Q", chatId := some "c1", now := 7 }
    "c1" [⟨.user, .text "hi"⟩, ⟨.model, .text "yo"⟩] 0
    { query := "x", responseType := .text, cacheThreshold := 1,
      cacheHits := 0, response := some (.str "P") }
    (.str "P") (.text "P") ⟨.model, .text "P"⟩
    rfl rfl (by decide) rfl (by decide) (by decide) (by decide)
    rfl (by decide) rfl rfl rfl
  exact ⟨h.1, h.2.2.1⟩

set_option maxRecDepth 100000 in
/-- C6 counterexample: in the concrete end-to-end scenario (threshold 2,
24h expiry, RAG plus history plus cache, same query text on every call,
chatId C1 = chat-0 reused on calls 2 and 3), call 3 is NOT a cache hit: it
invokes the generator once, and no record ever receives a payload, because the
fingerprint covers the loaded history, which has grown between calls, so each
call tracks a fresh fingerprint instead of decrementing the first one. -/
theorem scenario_call3_not_cache_hit :
    scenarioCall3.genCalls = 1 ∧
    StrMap.allValues scenarioCall3.state.cacheStore.cache
      (fun r => r.response.isNone) = true := by
  decide

set_option maxRecDepth 100000 in
/-- C6 (amended): in the scenario with chatId C1 reused, every call generates
fresh (one generator invocation each); the chat id stays chat-0 throughout;
call 3 returns content identical to call 2 (the generator is deterministic
here); and after call 3 the conversation holds 3 user and 3 model messages
besides the single seed system message. A call-3 cache hit with zero
generator calls occurs only when the calls do not supply a chat id, because
the fingerprint includes the serialized history. -/
theorem scenario_amended :
    scenarioCall1.result = .success (.text "R") (some "chat-0") ∧
    scenarioCall1.genCalls = 1 ∧
    scenarioCall2.result = .success (.text "R") (some "chat-0") ∧
    scenarioCall2.genCalls = 1 ∧
    scenarioCall3.result = .success (.text "R") (some "chat-0") ∧
    scenarioCall3.genCalls = 1 ∧
    (scenarioCall3.state.historyStore.history.get "chat-0").map
      (fun hrec => (countRole hrec.messages .user, countRole hrec.messages .model,
        countRole hrec.messages .system)) = some (3, 3, 1) := by
  decide

/-- C7: a request that supplies a conversation id unknown to the history store
fails hard with the chat-history-not-found message, and the failure is
terminal: the generator is never invoked, no store state changes, and in
particular no new conversation is silently created under a fresh id. -/
theorem unknown_chat_id_is_terminal (cfg : ChatEndpointConfig) (g : Generator)
    (st : WorldState) (req : ChatEndpointRequest) (c : String)
    (hch : cfg.enableChatHistory = true) (hq : req.query ≠ "")
    (hcid : req.chatId = some c) (hcne : c ≠ "")
    (hget : st.historyStore.history.get c = none) :
    handleRequest cfg g st req =
      ⟨.failure ("Chat history with ID " ++ c ++ " not found."), st, 0⟩ := by
  have hnorm : normalizeChatId req.chatId = some c := by
    rw [hcid]; simp [normalizeChatId, hcne]
  have hload : historyLoad cfg.enableChatHistory st.historyStore
      (normalizeChatId req.chatId) =
      .error ("Chat history with ID " ++ c ++ " not found.") := by
    rw [hnorm]
    simp [historyLoad, hch, InMemoryChatHistoryStore.getChatHistory, hget,
      Except.map]
  unfold handleRequest
  rw [if_neg hq]
  simp only [hload]

/-- C7 witness: the terminal-error theorem applied to a history-enabled
endpoint with empty stores and the unknown conversation id bad-id. -/
theorem unknown_chat_id_is_terminal_witness :
    handleRequest { enableChatHistory := true } sampleGen
        ⟨⟨[], 86400000, 3⟩, ⟨[], 0⟩⟩
        { query := "Q", chatId := some "bad-id", now := 0 } =
      ⟨.failure ("Chat history with ID " ++ "bad-id" ++ " not found."),
        ⟨⟨[], 86400000, 3⟩, ⟨[], 0⟩⟩, 0⟩ :=
  unknown_chat_id_is_terminal { enableChatHistory := true } sampleGen
    ⟨⟨[], 86400000, 3⟩, ⟨[], 0⟩⟩
    { query := "Q", chatId := some "bad-id", now := 0 } "bad-id"
    rfl (by decide) rfl (by decide) rfl

/-- C8 counterexample: an auth-enabled endpoint given an empty-query request
with no API key does not return the greeting: the framework evaluates the auth
policy before the handler, so the request is rejected with the invalid-API-key
error and the greeting short-circuit is never reached. -/
theorem empty_query_still_auth_checked :
    runEndpoint { enableAuth := true } none sampleGen none
        ⟨⟨[], 86400000, 3⟩, ⟨[], 0⟩⟩ { query := "", now := 0 } =
      .authFailure "Error: Invalid API key" ∧
    runEndpoint { enableAuth := true } none sampleGen none
        ⟨⟨[], 86400000, 3⟩, ⟨[], 0⟩⟩ { query := "", now := 0 } ≠
      .output ⟨.success (.text "How can I help you today?") none,
        ⟨⟨[], 86400000, 3⟩, ⟨[], 0⟩⟩, 0⟩ := by
  decide

/-- C8 (amended): the flow handler special-cases the empty query and returns
the greeting before any cache lookup, history load, RAG retrieval or store
access (the store state is returned unchanged and the generator is never
invoked); but the auth policy, when enabled, still runs before the handler,
so an unauthorized empty-query request receives an auth error rather than the
greeting. -/
theorem empty_query_short_circuit (cfg : ChatEndpointConfig) (g : Generator)
    (st : WorldState) (chatId uid : Option String) (os : Option OutputFormat)
    (now : Nat) (ks : Option InMemoryAPIKeyStore) :
    handleRequest cfg g st ⟨"", chatId, uid, os, now⟩ =
      ⟨.success (.text "How can I help you today?") none, st, 0⟩ ∧
    runEndpoint { cfg with enableAuth := true } ks g none st
        ⟨"", chatId, uid, os, now⟩ =
      .authFailure "Error: Invalid API key" := by
  constructor
  · unfold handleRequest
    rw [if_pos rfl]
  · rfl

/-- C9 counterexample: generation succeeds (the generator returns ok, with
empty text), yet the caller receives the error shape: on the marked second
sighting the in-memory cacheResponse throws synchronously on the falsy
payload, the outer catch converts it into the error object, and the
successful response is lost. -/
theorem cache_write_failure_becomes_error :
    emptyTextGen ⟨"Q", none, none⟩ = .ok ⟨"", "OUT", "ct", "url"⟩ ∧
    (handleRequest cacheOnlyConfig emptyTextGen
        (runTrace cacheOnlyConfig emptyTextGen (emptyState 2)
          [{ query := "Q", now := 0 }])
        { query := "Q", now := 0 }).result =
      .failure "Error: Error: Invalid hash or response data" ∧
    (handleRequest cacheOnlyConfig emptyTextGen
        (runTrace cacheOnlyConfig emptyTextGen (emptyState 2)
          [{ query := "Q", now := 0 }])
        { query := "Q", now := 0 }).genCalls = 1 := by
  decide

/-- When the lookup sets the must-cache mark, the looked-up record is present
in the store the lookup returns. -/
theorem cacheLookup_mark_record_present (s : InMemoryCacheStore) (H qwc : String)
    (fmt : OutputFormat) (now : Nat)
    (hm : (cacheLookup s H qwc fmt now).1 = .miss true) :
    ∃ r, (cacheLookup s H qwc fmt now).2.cache.get H = some r := by
  unfold cacheLookup InMemoryCacheStore.getRecord at hm ⊢
  cases hg : s.cache.get H with
  | none =>
      rw [hg] at hm
      simp at hm
  | some r =>
      rw [hg] at hm
      cases hresp : r.response with
      | none =>
          simp only [hresp]
          unfold InMemoryCacheStore.decrementCacheThreshold
          simp only [hg]
          exact ⟨_, by rw [StrMap.get_set]; exact if_pos rfl⟩
      | some payload =>
          simp only [hresp] at hm ⊢
          by_cases hcond : payload.present = true ∧ r.responseType = fmt.tag
          · rw [if_pos hcond] at hm ⊢
            by_cases hexp : InMemoryCacheStore.isExpired r now = true
            · rw [if_pos hexp] at hm
              simp at hm
            · rw [if_neg hexp] at hm
              cases hp : parseCachedResponse fmt r.responseType payload with
              | some pr =>
                  rw [hp] at hm
                  simp at hm
              | none =>
                  rw [hp] at hm
                  simp at hm
          · rw [if_neg hcond]
            unfold InMemoryCacheStore.decrementCacheThreshold
            simp only [hg]
            exact ⟨_, by rw [StrMap.get_set]; exact if_pos rfl⟩

/-- With the mark set, a nonempty hash, a present record and truthy payload
fields, the cache write succeeds. -/
theorem cacheWrite_marked_ok (cfg : ChatEndpointConfig) (cs : InMemoryCacheStore)
    (fmt : OutputFormat) (H : String) (out : GenOutput) (now : Nat)
    (hce : cfg.enableCache = true) (hH : H ≠ "")
    (r : CacheRecord) (hrec : cs.cache.get H = some r)
    (h1 : out.text ≠ "") (h2 : out.output ≠ "")
    (h3 : out.mediaContentType ≠ "") (h4 : out.mediaUrl ≠ "") :
    ∃ cs', cacheWrite cfg cs fmt H out true now = .ok cs' := by
  unfold cacheWrite
  rw [if_pos (show cfg.enableCache = true ∧ true = true from ⟨hce, rfl⟩)]
  cases fmt with
  | json =>
      have hc : ¬(H = "" ∨ (CachePayload.str out.output).present = false) := by
        simp [hH, CachePayload.present, h2]
      unfold InMemoryCacheStore.cacheResponse
      rw [if_neg hc]
      simp only [hrec]
      exact ⟨_, rfl⟩
  | media ct =>
      have hc : ¬(H = "" ∨
          (CachePayload.media out.mediaContentType out.mediaUrl).present = false) := by
        simp [hH, CachePayload.present]
      rw [if_pos (show out.mediaContentType ≠ "" ∧ out.mediaUrl ≠ "" from ⟨h3, h4⟩)]
      unfold InMemoryCacheStore.cacheResponse
      rw [if_neg hc]
      simp only [hrec]
      exact ⟨_, rfl⟩
  | text =>
      have hc : ¬(H = "" ∨ (CachePayload.str out.text).present = false) := by
        simp [hH, CachePayload.present, h1]
      unfold InMemoryCacheStore.cacheResponse
      rw [if_neg hc]
      simp only [hrec]
      exact ⟨_, rfl⟩

/-- The cache-hit return path always produces a success result. -/
theorem hitReturn_result_success (cfg : ChatEndpointConfig)
    (cs : InMemoryCacheStore) (hs : InMemoryChatHistoryStore)
    (req : ChatEndpointRequest) (chatId : Option String)
    (rv : ResponseValue) (mm : Message) :
    (hitReturn cfg cs hs req chatId rv mm).result.isFailure = false := by
  unfold hitReturn
  by_cases hh : cfg.enableChatHistory <;> cases chatId <;>
    simp [hh, EndpointResult.isFailure]

/-- C9 (amended): on a history-disabled, RAG-disabled endpoint, if generation
succeeds with truthy payload fields then the caller always receives the
successful response, never the error shape: the marked cache write cannot
throw in that case. The original claim fails when the write does throw
synchronously (for example on an empty generated text), which the outer catch
turns into a user-facing error despite the successful generation. -/
theorem successful_generation_returned (cfg : ChatEndpointConfig) (g : Generator)
    (st : WorldState) (req : ChatEndpointRequest) (out : GenOutput)
    (hch : cfg.enableChatHistory = false) (hrg : cfg.enableRAG = false)
    (hq : req.query ≠ "")
    (hgen : g ⟨req.query, none, none⟩ = .ok out)
    (h1 : out.text ≠ "") (h2 : out.output ≠ "")
    (h3 : out.mediaContentType ≠ "") (h4 : out.mediaUrl ≠ "") :
    (handleRequest cfg g st req).result.isFailure = false := by
  have hload : historyLoad cfg.enableChatHistory st.historyStore
      (normalizeChatId req.chatId) = .ok none := by
    simp [historyLoad, hch]
  have hctx : ragContext cfg req.query = .ok none := by simp [ragContext, hrg]
  have hqwc : queryWithContextOf req.query none = req.query := rfl
  have hag : ∀ chatId, agentGenerate cfg g st.historyStore req none none chatId =
      .ok (out, st.historyStore, none) := by
    intro chatId
    unfold agentGenerate
    rw [if_neg (by rw [hch]; exact Bool.false_ne_true)]
    rw [hgen]
  unfold handleRequest
  rw [if_neg hq]
  simp only [hload]
  by_cases hcache : cfg.enableCache = true
  · rw [if_pos hcache]
    rw [if_neg (show ¬(generateHash (queryWithContextOf req.query none) = "") from hq)]
    rw [hqwc]
    cases hcl : cacheLookup st.cacheStore (generateHash req.query) req.query
        (req.outputSchema.getD (cfg.outputSchema.getD .text)) req.now with
    | mk o cs =>
        cases o with
        | hit rv mm =>
            simp only
            exact hitReturn_result_success cfg cs st.historyStore req
              (normalizeChatId req.chatId) rv mm
        | miss mark =>
            simp only
            unfold generationPhase
            simp only [hctx, hag]
            cases mark with
            | false =>
                simp only [cacheWrite_unmarked]
                rfl
            | true =>
                obtain ⟨r, hr⟩ := cacheLookup_mark_record_present st.cacheStore
                  (generateHash req.query) req.query
                  (req.outputSchema.getD (cfg.outputSchema.getD .text)) req.now
                  (by rw [hcl])
                rw [hcl] at hr
                obtain ⟨cs', hw⟩ := cacheWrite_marked_ok cfg cs
                  (req.outputSchema.getD (cfg.outputSchema.getD .text))
                  (generateHash req.query) out req.now hcache hq r hr h1 h2 h3 h4
                simp only [hw]
                rfl
  · rw [if_neg hcache]
    unfold generationPhase
    simp only [hctx, hag]
    simp only [cacheWrite_unmarked]
    rfl

/-- C9 witness: the amended theorem applied to a concrete cache-enabled
endpoint, a generator with truthy payloads, and empty stores. -/
theorem successful_generation_returned_witness :
    (handleRequest cacheOnlyConfig sampleGen (emptyState 2)
        { query := "Q", now := 0 }).result.isFailure = false :=
  successful_generation_returned cacheOnlyConfig sampleGen (emptyState 2)
    { query := "Q", now := 0 } ⟨"R", "OUT", "ct", "url"⟩
    rfl rfl (by decide) rfl (by decide) (by decide) (by decide) (by decide)

set_option maxRecDepth 100000 in
/-- C10 counterexample: after a text payload is cached under fingerprint Q, a
later expiry-triggered reset restores the admission countdown to the full N,
so a subsequent json request on the same fingerprint fires the must-cache mark
and its json response IS cached: the stored kind changes from text to json. -/
theorem kind_change_after_expiry_reset :
    (runTrace cacheOnlyConfig sampleGen (emptyState 2)
        [ { query := "Q", outputSchema := some .text, now := 0 },
          { query := "Q", outputSchema := some .text, now := 0 } ]).cacheStore.cache.get "Q"
      = some ⟨"Q", .text, 1, 0, some (.str "R"), some 86400000, none, none⟩ ∧
    kindChangeTrace.cacheStore.cache.get "Q"
      = some ⟨"Q", .json, 1, 1, some (.str "OUT"), some 172800002, some 86400001, none⟩ := by
  decide

/-- Decrementing a record whose threshold is at most 1 can never leave the
post-decrement value at 1, so the must-cache mark cannot fire. -/
theorem decrement_low_threshold (s : InMemoryCacheStore) (H : String)
    (r : CacheRecord) (hg : s.cache.get H = some r) (hth : r.cacheThreshold ≤ 1) :
    ∃ t, s.decrementCacheThreshold H =
        ({ s with cache := s.cache.set H { r with cacheThreshold := t } }, t) ∧
      t ≤ 1 ∧ ((t - 1 == 0) = false) := by
  unfold InMemoryCacheStore.decrementCacheThreshold
  simp only [hg]
  by_cases h0 : r.cacheThreshold ≠ 0
  · rw [if_pos h0]
    refine ⟨r.cacheThreshold - 1, rfl, by omega, ?_⟩
    rw [beq_eq_false_iff_ne]
    omega
  · rw [if_neg h0]
    push_neg at h0
    refine ⟨r.cacheThreshold, rfl, hth, ?_⟩
    rw [beq_eq_false_iff_ne]
    omega

/-- A lookup whose declared kind differs from the stored kind always takes the
decrement branch, regardless of payload or expiry. -/
theorem cacheLookup_mismatch (s : InMemoryCacheStore) (H qwc : String)
    (fmt : OutputFormat) (now : Nat) (r : CacheRecord) (p : CachePayload)
    (hg : s.cache.get H = some r) (hp : r.response = some p)
    (hne : r.responseType ≠ fmt.tag) :
    cacheLookup s H qwc fmt now =
      (.miss ((s.decrementCacheThreshold H).2 - 1 == 0),
        (s.decrementCacheThreshold H).1) := by
  unfold cacheLookup InMemoryCacheStore.getRecord
  rw [hg]
  simp only [hp]
  rw [if_neg (fun h => hne h.2)]

/-- C10 (amended): once a payload of kind A occupies a fingerprint whose
countdown is at most 1, a history- and RAG-disabled request declaring a
different kind generates fresh (one generator call, no hit) and leaves the
record unchanged except for the countdown, which stays at most 1: the
hypothesis re-establishes itself, so by induction the mismatched kind is never
cached while no matching-kind expiry reset intervenes. The original claim
fails after such a reset, which restores the countdown to the configured N and
re-arms admission for the other kind (see the counterexample); its stated
mechanism is also off: the mark tests the post-decrement countdown against 1,
not the pre-decrement countdown. -/
theorem kind_mismatch_step_no_cache (cfg : ChatEndpointConfig) (g : Generator)
    (st : WorldState) (req : ChatEndpointRequest) (r : CacheRecord)
    (p : CachePayload) (out : GenOutput)
    (hch : cfg.enableChatHistory = false) (hrg : cfg.enableRAG = false)
    (hce : cfg.enableCache = true) (hq : req.query ≠ "")
    (hrec : st.cacheStore.cache.get (generateHash req.query) = some r)
    (hp : r.response = some p)
    (hne : r.responseType ≠ (req.outputSchema.getD (cfg.outputSchema.getD .text)).tag)
    (hth : r.cacheThreshold ≤ 1)
    (hgen : g ⟨req.query, none, none⟩ = .ok out) :
    (handleRequest cfg g st req).genCalls = 1 ∧
    ∃ t, (handleRequest cfg g st req).state.cacheStore.cache.get
          (generateHash req.query) = some { r with cacheThreshold := t } ∧
        t ≤ 1 := by
  obtain ⟨t, hdec, htle, hmark⟩ :=
    decrement_low_threshold st.cacheStore (generateHash req.query) r hrec hth
  have hload : historyLoad cfg.enableChatHistory st.historyStore
      (normalizeChatId req.chatId) = .ok none := by
    simp [historyLoad, hch]
  have hctx : ragContext cfg req.query = .ok none := by simp [ragContext, hrg]
  have hag : agentGenerate cfg g st.historyStore req none none
      (normalizeChatId req.chatId) = .ok (out, st.historyStore, none) := by
    unfold agentGenerate
    rw [if_neg (by rw [hch]; exact Bool.false_ne_true)]
    rw [hgen]
  have hcl : cacheLookup st.cacheStore (generateHash req.query) req.query
      (req.outputSchema.getD (cfg.outputSchema.getD .text)) req.now =
      (.miss false,
        { st.cacheStore with
            cache := st.cacheStore.cache.set (generateHash req.query)
              { r with cacheThreshold := t } }) := by
    rw [cacheLookup_mismatch st.cacheStore (generateHash req.query) req.query
      (req.outputSchema.getD (cfg.outputSchema.getD .text)) req.now r p hrec hp hne]
    rw [hdec]
    rw [show (((({ st.cacheStore with
        cache := st.cacheStore.cache.set (generateHash req.query)
          { r with cacheThreshold := t } } : InMemoryCacheStore), t)).2 - 1 == 0) =
      (t - 1 == 0) from rfl]
    rw [hmark]
  unfold handleRequest
  rw [if_neg hq]
  simp only [hload]
  rw [if_pos hce]
  rw [if_neg (show ¬(generateHash (queryWithContextOf req.query none) = "") from hq)]
  rw [show queryWithContextOf req.query none = req.query from rfl]
  rw [hcl]
  simp only
  unfold generationPhase
  simp only [hctx, hag]
  simp only [cacheWrite_unmarked]
  refine ⟨by trivial, t, ?_, htle⟩
  show (StrMap.set st.cacheStore.cache (generateHash req.query)
      { r with cacheThreshold := t }).get (generateHash req.query) = _
  rw [StrMap.get_set]
  exact if_pos rfl

set_option maxRecDepth 100000 in
/-- C10 witness: the single-step preservation theorem applied to the concrete
store holding a cached text payload with countdown 1 and a json request. -/
theorem kind_mismatch_step_no_cache_witness :
    (handleRequest cacheOnlyConfig sampleGen
        (runTrace cacheOnlyConfig sampleGen (emptyState 2)
          [ { query := "Q", outputSchema := some .text, now := 0 },
            { query := "Q", outputSchema := some .text, now := 0 } ])
        { query := "Q", outputSchema := some .json, now := 0 }).genCalls = 1 ∧
    ∃ t, (handleRequest cacheOnlyConfig sampleGen
        (runTrace cacheOnlyConfig sampleGen (emptyState 2)
          [ { query := "Q", outputSchema := some .text, now := 0 },
            { query := "Q", outputSchema := some .text, now := 0 } ])
        { query := "Q", outputSchema := some .json, now := 0 }).state.cacheStore.cache.get
          (generateHash "Q") =
        some { (⟨"Q", .text, 1, 0, some (.str "R"), some 86400000, none, none⟩ :
          CacheRecord) with cacheThreshold := t } ∧ t ≤ 1 :=
  kind_mismatch_step_no_cache cacheOnlyConfig sampleGen
    (runTrace cacheOnlyConfig sampleGen (emptyState 2)
      [ { query := "Q", outputSchema := some .text, now := 0 },
        { query := "Q", outputSchema := some .text, now := 0 } ])
    { query := "Q", outputSchema := some .json, now := 0 }
    ⟨"Q", .text, 1, 0, some (.str "R"), some 86400000, none, none⟩
    (.str "R") ⟨"R", "OUT", "ct", "url"⟩
    rfl rfl rfl (by decide) (by decide) rfl (by decide) (by decide) rfl
